import Mathlib

/-!
Verification development for the extension-host model-view dialog layer
(`extHostModelViewDialog.ts`): a coordinator that synchronizes dialog, tab
and button objects to a host process through numeric handles and one-way
messages, and routes inbound button-click notifications back to registered
callbacks.

The embedding models object identity by natural-number ids held in an
explicit heap (`dialogs`, `tabs`, `buttons` association lists keyed by id),
the three identity-keyed handle maps, the global handle counter, the
click-callback table, and the ordered trace of outbound proxy messages.
JavaScript `Map.set` is modelled by consing a new pair onto the association
list (`List.lookup` finds the most recent binding, matching overwrite
semantics).
-/

namespace ModelViewDialog

/-- Wire form of a dialog's `content` field in `$setDialogDetails`:
`undefined`, a string, or the list of tab handles. -/
inductive WireContent
  | undef
  | str (s : String)
  | tabs (hs : List Nat)
  deriving DecidableEq

/-- Payload of `$setDialogDetails` (title, okButton, cancelButton, content,
customButtons), field order as in the source object literal. -/
structure DialogDetails where
  title : Option String
  okButton : Nat
  cancelButton : Nat
  content : WireContent
  customButtons : Option (List Nat)
  deriving DecidableEq

/-- Outbound proxy messages of `MainThreadModelViewDialogShape` used by this
layer, in the order they are pushed onto the trace. -/
inductive Message
  | setDialogDetails (handle : Nat) (d : DialogDetails)
  | setTabDetails (handle : Nat) (title content : Option String)
  | setButtonDetails (handle : Nat) (label : Option String) (enabled : Bool)
  | openMsg (handle : Nat)
  | closeMsg (handle : Nat)
  deriving DecidableEq

/-- `ButtonImpl`: `_label` (undefined until first set) and `_enabled`
(initialized to `true` in the constructor). -/
structure ButtonObj where
  label : Option String
  enabled : Bool
  deriving DecidableEq

/-- `TabImpl`: plain `title` and `content` fields, undefined until set. -/
structure TabObj where
  title : Option String
  content : Option String
  deriving DecidableEq

/-- A dialog's `content` field: undefined, a string, or an array of tabs
(tab ids into the heap). -/
inductive DContent
  | undef
  | str (s : String)
  | tabs (ts : List Nat)
  deriving DecidableEq

/-- `DialogImpl`: `title`, `content`, `okButton`, `cancelButton` (button
ids, set in the constructor), optional `customButtons` (button ids). -/
structure DialogObj where
  title : Option String
  content : DContent
  okButton : Nat
  cancelButton : Nat
  customButtons : Option (List Nat)
  deriving DecidableEq

/-- The whole coordinator state: the static handle counter, a fresh-id
counter for object identities, the object heap, the three identity-keyed
handle maps of `ExtHostModelViewDialog`, the `_onClickCallbacks` table
(handle to callback id; a callback id `b` means "fire button `b`'s click
emitter"), the ordered outbound message trace, and the trace of callbacks
that have fired. -/
structure State where
  currentHandle : Nat
  nextObjId : Nat
  dialogs : List (Nat × DialogObj)
  tabs : List (Nat × TabObj)
  buttons : List (Nat × ButtonObj)
  dialogHandles : List (Nat × Nat)
  tabHandles : List (Nat × Nat)
  buttonHandles : List (Nat × Nat)
  onClickCallbacks : List (Nat × Nat)
  messages : List Message
  firedClicks : List Nat
  deriving DecidableEq

/-- Process start: `_currentHandle = 0`, everything empty. -/
def initState : State := ⟨0, 0, [], [], [], [], [], [], [], [], []⟩

/-- Append one outbound message to the trace (a `this._proxy.$...` call). -/
def sendMsg (s : State) (m : Message) : State :=
  { s with messages := s.messages ++ [m] }

/-- `ExtHostModelViewDialog.getNewHandle`: return the current counter and
increment it. -/
def getNewHandle (s : State) : Nat × State :=
  (s.currentHandle, { s with currentHandle := s.currentHandle + 1 })

/-- `getDialogHandle`: look the dialog up in `_dialogHandles`; on a miss,
allocate a new handle and store the mapping. -/
def getDialogHandle (s : State) (d : Nat) : Nat × State :=
  match s.dialogHandles.lookup d with
  | some h => (h, s)
  | none =>
    let p := getNewHandle s
    (p.1, { p.2 with dialogHandles := (d, p.1) :: p.2.dialogHandles })

/-- `getTabHandle`: identical shape over `_tabHandles`. -/
def getTabHandle (s : State) (t : Nat) : Nat × State :=
  match s.tabHandles.lookup t with
  | some h => (h, s)
  | none =>
    let p := getNewHandle s
    (p.1, { p.2 with tabHandles := (t, p.1) :: p.2.tabHandles })

/-- `getButtonHandle`: identical shape over `_buttonHandles`. -/
def getButtonHandle (s : State) (b : Nat) : Nat × State :=
  match s.buttonHandles.lookup b with
  | some h => (h, s)
  | none =>
    let p := getNewHandle s
    (p.1, { p.2 with buttonHandles := (b, p.1) :: p.2.buttonHandles })

/-- Heap read of a button with the `ButtonImpl` constructor defaults
(`_label` undefined, `_enabled = true`) when the id is unknown. -/
def findButton (s : State) (b : Nat) : ButtonObj :=
  (s.buttons.lookup b).getD ⟨none, true⟩

/-- Heap read of a tab with the `TabImpl` defaults. -/
def findTab (s : State) (t : Nat) : TabObj :=
  (s.tabs.lookup t).getD ⟨none, none⟩

/-- Update the first heap binding of a key in an association list (the one
`List.lookup` sees); identity when the key is absent. -/
def assocUpdate {α : Type} (l : List (Nat × α)) (k : Nat) (f : α → α) :
    List (Nat × α) :=
  match l with
  | [] => []
  | (k', v) :: rest =>
    if k' = k then (k', f v) :: rest else (k', v) :: assocUpdate rest k f

/-- `updateButton`: resolve the button's handle (allocating on a miss) and
send `$setButtonDetails(handle, {label, enabled})`. -/
def updateButton (s : State) (b : Nat) : State :=
  let p := getButtonHandle s b
  let o := findButton p.2 b
  sendMsg p.2 (.setButtonDetails p.1 o.label o.enabled)

/-- `updateTabContent`: resolve the tab's handle and send
`$setTabDetails(handle, {title, content})`. -/
def updateTabContent (s : State) (t : Nat) : State :=
  let p := getTabHandle s t
  let o := findTab p.2 t
  sendMsg p.2 (.setTabDetails p.1 o.title o.content)

/-- State-threaded `content.map(tab => this.getTabHandle(tab))`. -/
def mapGetTabHandles (s : State) : List Nat → List Nat × State
  | [] => ([], s)
  | t :: ts =>
    let p := getTabHandle s t
    let q := mapGetTabHandles p.2 ts
    (p.1 :: q.1, q.2)

/-- State-threaded `customButtons.map(b => this.getButtonHandle(b))`. -/
def mapGetButtonHandles (s : State) : List Nat → List Nat × State
  | [] => ([], s)
  | b :: bs =>
    let p := getButtonHandle s b
    let q := mapGetButtonHandles p.2 bs
    (p.1 :: q.1, q.2)

/-- `updateDialogContent`: resolve the dialog handle, synchronize each tab
of a tab-array content, each custom button, the ok button, the cancel
button, then assemble and send `$setDialogDetails` whose fields are
evaluated in the source's object-literal order (okButton, cancelButton,
content, customButtons). The source reads the fields off the passed
`DialogImpl`; here they are read off the heap entry, so an unknown dialog
id is a no-op (unreachable through the factory API). -/
def updateDialogContent (s : State) (d : Nat) : State :=
  match s.dialogs.lookup d with
  | none => s
  | some obj =>
    let p := getDialogHandle s d
    let s1 :=
      match obj.content with
      | .tabs ts => ts.foldl updateTabContent p.2
      | _ => p.2
    let s2 :=
      match obj.customButtons with
      | some bs => bs.foldl updateButton s1
      | none => s1
    let s3 := updateButton s2 obj.okButton
    let s4 := updateButton s3 obj.cancelButton
    let q1 := getButtonHandle s4 obj.okButton
    let q2 := getButtonHandle q1.2 obj.cancelButton
    let q3 :=
      match obj.content with
      | .undef => (WireContent.undef, q2.2)
      | .str x => (WireContent.str x, q2.2)
      | .tabs ts =>
        let r := mapGetTabHandles q2.2 ts
        (WireContent.tabs r.1, r.2)
    let q4 :=
      match obj.customButtons with
      | some bs =>
        let r := mapGetButtonHandles q3.2 bs
        (some r.1, r.2)
      | none => (none, q3.2)
    sendMsg q4.2
      (.setDialogDetails p.1 ⟨obj.title, q1.1, q2.1, q3.1, q4.1⟩)

/-- `open(dialog)`: resolve the dialog handle, push the full dialog state,
then send the `$open` directive with that handle. -/
def openDialog (s : State) (d : Nat) : State :=
  let p := getDialogHandle s d
  let s1 := updateDialogContent p.2 d
  sendMsg s1 (.openMsg p.1)

/-- `close(dialog)`: resolve the handle and send `$close`; no state
synchronization. -/
def closeDialog (s : State) (d : Nat) : State :=
  let p := getDialogHandle s d
  sendMsg p.2 (.closeMsg p.1)

/-- `registerOnClickCallback(button, callback)`: resolve the button's
handle and store the callback under it (`Map.set` overwrite). -/
def registerOnClickCallback (s : State) (b : Nat) (cb : Nat) : State :=
  let p := getButtonHandle s b
  { p.2 with onClickCallbacks := (p.1, cb) :: p.2.onClickCallbacks }

/-- `ButtonImpl.label` setter: write the field, then `updateButton(this)`. -/
def setButtonLabel (s : State) (b : Nat) (lbl : String) : State :=
  let s1 := { s with buttons := assocUpdate s.buttons b (fun o => { o with label := some lbl }) }
  updateButton s1 b

/-- `ButtonImpl.enabled` setter: write the field, then `updateButton(this)`. -/
def setButtonEnabled (s : State) (b : Nat) (v : Bool) : State :=
  let s1 := { s with buttons := assocUpdate s.buttons b (fun o => { o with enabled := v }) }
  updateButton s1 b

/-- Plain `DialogImpl.title` field write (no setter, no side effect). -/
def setDialogTitle (s : State) (d : Nat) (t : String) : State :=
  { s with dialogs := assocUpdate s.dialogs d (fun o => { o with title := some t }) }

/-- Plain `DialogImpl.content` field write. -/
def setDialogContent (s : State) (d : Nat) (c : DContent) : State :=
  { s with dialogs := assocUpdate s.dialogs d (fun o => { o with content := c }) }

/-- Plain `DialogImpl.customButtons` field write. -/
def setDialogCustomButtons (s : State) (d : Nat) (bs : Option (List Nat)) : State :=
  { s with dialogs := assocUpdate s.dialogs d (fun o => { o with customButtons := bs }) }

/-- Plain `TabImpl.title` field write. -/
def setTabTitle (s : State) (t : Nat) (x : String) : State :=
  { s with tabs := assocUpdate s.tabs t (fun o => { o with title := some x }) }

/-- Plain `TabImpl.content` field write. -/
def setTabContent (s : State) (t : Nat) (x : String) : State :=
  { s with tabs := assocUpdate s.tabs t (fun o => { o with content := some x }) }

/-- `createButton(label)`: `new ButtonImpl(this)` (fresh identity,
`_enabled = true`), then `button.label = label` — which runs the label
SETTER, hence an `updateButton` that allocates a handle and sends the
initial `$setButtonDetails` — then `getNewHandle()` and an unconditional
`_buttonHandles.set(button, handle)` overwriting the entry the setter just
created, then `registerOnClickCallback(button, button.getOnClickCallback())`
(the callback id is the button's own id: firing it fires that button's
click emitter). Returns the button's id. -/
def createButton (s : State) (label : String) : Nat × State :=
  let b := s.nextObjId
  let s1 := { s with nextObjId := b + 1, buttons := (b, ⟨none, true⟩) :: s.buttons }
  let s2 := setButtonLabel s1 b label
  let p := getNewHandle s2
  let s3 := { p.2 with buttonHandles := (b, p.1) :: p.2.buttonHandles }
  (b, registerOnClickCallback s3 b b)

/-- `createTab(title)`: `new TabImpl(this)` (fresh identity), plain
`tab.title = title` write, then allocate and store the tab's handle. -/
def createTab (s : State) (title : String) : Nat × State :=
  let t := s.nextObjId
  let s1 := { s with nextObjId := t + 1, tabs := (t, ⟨none, none⟩) :: s.tabs }
  let s2 := setTabTitle s1 t title
  let p := getNewHandle s2
  (t, { p.2 with tabHandles := (t, p.1) :: p.2.tabHandles })

/-- `createDialog(title)`: `new DialogImpl(this)` — fresh identity whose
constructor eagerly creates `okButton = createButton("Done")` and
`cancelButton = createButton("Cancel")` — then plain `dialog.title = title`
write, then eager allocation and storage of the dialog's own handle. -/
def createDialog (s : State) (title : String) : Nat × State :=
  let d := s.nextObjId
  let s0 := { s with nextObjId := d + 1 }
  let pok := createButton s0 "Done"
  let pcancel := createButton pok.2 "Cancel"
  let s1 := { pcancel.2 with dialogs := (d, ⟨none, .undef, pok.1, pcancel.1, none⟩) :: pcancel.2.dialogs }
  let s2 := setDialogTitle s1 d title
  let p := getNewHandle s2
  (d, { p.2 with dialogHandles := (d, p.1) :: p.2.dialogHandles })

/-- The failure raised by `$onButtonClick` when no callback is registered:
`this._onClickCallbacks.get(handle)` is `undefined` and the immediate call
`(...)()` throws a TypeError that propagates out of the dispatcher. -/
inductive ClickError
  | undefinedIsNotAFunction
  deriving DecidableEq

/-- `$onButtonClick(handle)`: `this._onClickCallbacks.get(handle)()` —
invoke the registered callback (recorded on the `firedClicks` trace), or
throw when there is no entry. -/
def onButtonClick (s : State) (h : Nat) : Except ClickError State :=
  match s.onClickCallbacks.lookup h with
  | some cb => .ok { s with firedClicks := s.firedClicks ++ [cb] }
  | none => .error .undefinedIsNotAFunction

/-- The public operations of the layer: the three factory methods, the
button setters, the plain dialog/tab field writes, open/close, the three
update methods, callback registration, and inbound click delivery. -/
inductive Op
  | createDialogOp (title : String)
  | createTabOp (title : String)
  | createButtonOp (label : String)
  | setLabelOp (b : Nat) (lbl : String)
  | setEnabledOp (b : Nat) (v : Bool)
  | setDialogTitleOp (d : Nat) (t : String)
  | setDialogContentOp (d : Nat) (c : DContent)
  | setCustomButtonsOp (d : Nat) (bs : Option (List Nat))
  | setTabTitleOp (t : Nat) (x : String)
  | setTabContentOp (t : Nat) (x : String)
  | openOp (d : Nat)
  | closeOp (d : Nat)
  | updateDialogOp (d : Nat)
  | updateTabOp (t : Nat)
  | updateButtonOp (b : Nat)
  | registerOnClickOp (b : Nat) (cb : Nat)
  | onButtonClickOp (h : Nat)

/-- Apply one public operation. A failing `$onButtonClick` (thrown
TypeError) leaves the coordinator state as it was. -/
def applyOp (s : State) : Op → State
  | .createDialogOp t => (createDialog s t).2
  | .createTabOp t => (createTab s t).2
  | .createButtonOp l => (createButton s l).2
  | .setLabelOp b lbl => setButtonLabel s b lbl
  | .setEnabledOp b v => setButtonEnabled s b v
  | .setDialogTitleOp d t => setDialogTitle s d t
  | .setDialogContentOp d c => setDialogContent s d c
  | .setCustomButtonsOp d bs => setDialogCustomButtons s d bs
  | .setTabTitleOp t x => setTabTitle s t x
  | .setTabContentOp t x => setTabContent s t x
  | .openOp d => openDialog s d
  | .closeOp d => closeDialog s d
  | .updateDialogOp d => updateDialogContent s d
  | .updateTabOp t => updateTabContent s t
  | .updateButtonOp b => updateButton s b
  | .registerOnClickOp b cb => registerOnClickCallback s b cb
  | .onButtonClickOp h =>
    match onButtonClick s h with
    | .ok s' => s'
    | .error _ => s

/-- Apply a sequence of public operations, oldest first. -/
def applyOps (s : State) (ops : List Op) : State := ops.foldl applyOp s

/-- A reference to an object instance, tagged by kind; distinct references
are distinct instances. -/
inductive ObjRef
  | dialog (i : Nat)
  | tab (i : Nat)
  | button (i : Nat)
  deriving DecidableEq

/-- The registry lookup for a reference, dispatching to the handle map of
its kind. -/
def lookupRef (s : State) : ObjRef → Option Nat
  | .dialog i => s.dialogHandles.lookup i
  | .tab i => s.tabHandles.lookup i
  | .button i => s.buttonHandles.lookup i

/-- The get-or-assign operation for a reference, dispatching to the getter
of its kind. -/
def getHandleRef (s : State) : ObjRef → Nat × State
  | .dialog i => getDialogHandle s i
  | .tab i => getTabHandle s i
  | .button i => getButtonHandle s i

/-- The handle currently registered for a dialog (0 if none). -/
def dialogHandleOf (s : State) (d : Nat) : Nat :=
  (s.dialogHandles.lookup d).getD 0

/-- The handle currently registered for a tab (0 if none). -/
def tabHandleOf (s : State) (t : Nat) : Nat :=
  (s.tabHandles.lookup t).getD 0

/-- The handle currently registered for a button (0 if none). -/
def buttonHandleOf (s : State) (b : Nat) : Nat :=
  (s.buttonHandles.lookup b).getD 0

/-- The tab ids synchronized by `updateDialogContent` for a given content
value: the array's tabs, nothing for a string or undefined content. -/
def contentTabs : DContent → List Nat
  | .tabs ts => ts
  | _ => []

/-- The custom-button ids synchronized by `updateDialogContent`. -/
def customList : Option (List Nat) → List Nat
  | some bs => bs
  | none => []

/-- The wire content of `$setDialogDetails`, with tab handles read from a
given state. -/
def wireContentOf (s : State) : DContent → WireContent
  | .undef => .undef
  | .str x => .str x
  | .tabs ts => .tabs (ts.map (tabHandleOf s))

/-! Exception-aware variant of the synchronization path. The source has no
try/catch: a synchronous exception thrown while a child is synchronized
(for example by the outbound send) propagates and aborts the enclosing
call before any later statement runs. This is modelled by a failure flag:
a send either appends its message or raises (sets the flag), and every
subsequent step of the aborted call is skipped. The fallible send is
parameterized by which messages fail, so "some child's synchronization
fails" is expressible. -/

/-- Coordinator state plus the did-an-exception-propagate flag. -/
structure EState where
  st : State
  failed : Bool
  deriving DecidableEq

/-- Fallible send: skip if already failed, raise if this message's send
throws, otherwise append the message. -/
def sendMsgE (fails : Message → Bool) (es : EState) (m : Message) : EState :=
  if es.failed then es
  else if fails m then { es with failed := true }
  else { es with st := sendMsg es.st m }

/-- `updateButton` with fallible sends. -/
def updateButtonE (fails : Message → Bool) (es : EState) (b : Nat) : EState :=
  if es.failed then es
  else
    let p := getButtonHandle es.st b
    let o := findButton p.2 b
    sendMsgE fails ⟨p.2, false⟩ (.setButtonDetails p.1 o.label o.enabled)

/-- `updateTabContent` with fallible sends. -/
def updateTabContentE (fails : Message → Bool) (es : EState) (t : Nat) : EState :=
  if es.failed then es
  else
    let p := getTabHandle es.st t
    let o := findTab p.2 t
    sendMsgE fails ⟨p.2, false⟩ (.setTabDetails p.1 o.title o.content)

/-- The child-synchronization phase of `updateDialogContent` (source order:
tabs of a tab-array content, then custom buttons, then okButton, then
cancelButton), with fallible sends. -/
def syncChildrenE (fails : Message → Bool) (es : EState) (obj : DialogObj) : EState :=
  let es1 :=
    match obj.content with
    | .tabs ts => ts.foldl (updateTabContentE fails) es
    | _ => es
  let es2 :=
    match obj.customButtons with
    | some bs => bs.foldl (updateButtonE fails) es1
    | none => es1
  let es3 := updateButtonE fails es2 obj.okButton
  updateButtonE fails es3 obj.cancelButton

/-- `updateDialogContent` with fallible sends: resolve the dialog handle,
run the child phase, and only if no exception propagated assemble and send
the parent's `$setDialogDetails`. -/
def updateDialogContentE (fails : Message → Bool) (es : EState) (d : Nat) : EState :=
  if es.failed then es
  else
    match es.st.dialogs.lookup d with
    | none => es
    | some obj =>
      let p := getDialogHandle es.st d
      let es1 := syncChildrenE fails ⟨p.2, false⟩ obj
      if es1.failed then es1
      else
        let q1 := getButtonHandle es1.st obj.okButton
        let q2 := getButtonHandle q1.2 obj.cancelButton
        let q3 :=
          match obj.content with
          | .undef => (WireContent.undef, q2.2)
          | .str x => (WireContent.str x, q2.2)
          | .tabs ts =>
            let r := mapGetTabHandles q2.2 ts
            (WireContent.tabs r.1, r.2)
        let q4 :=
          match obj.customButtons with
          | some bs =>
            let r := mapGetButtonHandles q3.2 bs
            (some r.1, r.2)
          | none => (none, q3.2)
        sendMsgE fails ⟨q4.2, false⟩
          (.setDialogDetails p.1 ⟨obj.title, q1.1, q2.1, q3.1, q4.1⟩)

/-- Whether a message is the parent-level `$setDialogDetails`. -/
def isDialogDetails : Message → Bool
  | .setDialogDetails _ _ => true
  | _ => false

/-! Helper notions for the proofs: the common shape of a fresh handle
assignment, monotonicity of the registries under the synchronization
operations, and the registry invariant (handles bounded by the counter and
registered injectively). -/

/-- Assign the current counter value to a reference's kind map
(unconditionally consing the binding) and bump the counter. Both the miss
branch of the get-or-assign getters and the unconditional `Map.set` in the
factory methods have exactly this effect on the registries. -/
def bumpRef (s : State) : ObjRef → State
  | .dialog i => { s with currentHandle := s.currentHandle + 1, dialogHandles := (i, s.currentHandle) :: s.dialogHandles }
  | .tab i => { s with currentHandle := s.currentHandle + 1, tabHandles := (i, s.currentHandle) :: s.tabHandles }
  | .button i => { s with currentHandle := s.currentHandle + 1, buttonHandles := (i, s.currentHandle) :: s.buttonHandles }

theorem lookup_cons_hit {α : Type} (k : Nat) (v : α) (l : List (Nat × α)) :
    ((k, v) :: l).lookup k = some v := by
  simp [List.lookup]

theorem lookup_cons_miss {α : Type} {k k' : Nat} (v : α) (l : List (Nat × α))
    (h : k' ≠ k) : ((k', v) :: l).lookup k = l.lookup k := by
  have hb : (k == k') = false := beq_eq_false_iff_ne.mpr (Ne.symm h)
  simp [List.lookup, hb]

theorem lookupRef_bumpRef (s : State) (r r' : ObjRef) :
    lookupRef (bumpRef s r) r' =
      if r' = r then some s.currentHandle else lookupRef s r' := by
  cases r with
  | dialog i =>
    cases r' with
    | dialog j =>
      by_cases hij : j = i
      · subst hij; simp [lookupRef, bumpRef, lookup_cons_hit]
      · simp [lookupRef, bumpRef, lookup_cons_miss _ _ (fun h => hij h.symm),
          ObjRef.dialog.injEq, hij]
    | tab j => simp [lookupRef, bumpRef]
    | button j => simp [lookupRef, bumpRef]
  | tab i =>
    cases r' with
    | dialog j => simp [lookupRef, bumpRef]
    | tab j =>
      by_cases hij : j = i
      · subst hij; simp [lookupRef, bumpRef, lookup_cons_hit]
      · simp [lookupRef, bumpRef, lookup_cons_miss _ _ (fun h => hij h.symm),
          ObjRef.tab.injEq, hij]
    | button j => simp [lookupRef, bumpRef]
  | button i =>
    cases r' with
    | dialog j => simp [lookupRef, bumpRef]
    | tab j => simp [lookupRef, bumpRef]
    | button j =>
      by_cases hij : j = i
      · subst hij; simp [lookupRef, bumpRef, lookup_cons_hit]
      · simp [lookupRef, bumpRef, lookup_cons_miss _ _ (fun h => hij h.symm),
          ObjRef.button.injEq, hij]

theorem currentHandle_bumpRef (s : State) (r : ObjRef) :
    (bumpRef s r).currentHandle = s.currentHandle + 1 := by
  cases r <;> rfl

/-- Characterization of the get-or-assign getters: a hit returns the
stored handle and leaves the state alone; a miss returns the counter value
and performs exactly a `bumpRef`. -/
theorem getHandleRef_eq (s : State) (r : ObjRef) :
    getHandleRef s r =
      match lookupRef s r with
      | some h => (h, s)
      | none => (s.currentHandle, bumpRef s r) := by
  cases r with
  | dialog i =>
    cases hl : s.dialogHandles.lookup i <;>
      simp [getHandleRef, getDialogHandle, lookupRef, getNewHandle, bumpRef, hl]
  | tab i =>
    cases hl : s.tabHandles.lookup i <;>
      simp [getHandleRef, getTabHandle, lookupRef, getNewHandle, bumpRef, hl]
  | button i =>
    cases hl : s.buttonHandles.lookup i <;>
      simp [getHandleRef, getButtonHandle, lookupRef, getNewHandle, bumpRef, hl]

theorem getDialogHandle_as_ref (s : State) (i : Nat) :
    getDialogHandle s i = getHandleRef s (.dialog i) := rfl

theorem getTabHandle_as_ref (s : State) (i : Nat) :
    getTabHandle s i = getHandleRef s (.tab i) := rfl

theorem getButtonHandle_as_ref (s : State) (i : Nat) :
    getButtonHandle s i = getHandleRef s (.button i) := rfl

/-- A registered object's getter is a pure read. -/
theorem getButtonHandle_hit {s : State} {b v : Nat}
    (hv : s.buttonHandles.lookup b = some v) : getButtonHandle s b = (v, s) := by
  rw [getButtonHandle_as_ref, getHandleRef_eq]
  rw [show lookupRef s (.button b) = some v from hv]

theorem getTabHandle_hit {s : State} {t v : Nat}
    (hv : s.tabHandles.lookup t = some v) : getTabHandle s t = (v, s) := by
  rw [getTabHandle_as_ref, getHandleRef_eq]
  rw [show lookupRef s (.tab t) = some v from hv]

theorem getDialogHandle_hit {s : State} {d v : Nat}
    (hv : s.dialogHandles.lookup d = some v) : getDialogHandle s d = (v, s) := by
  rw [getDialogHandle_as_ref, getHandleRef_eq]
  rw [show lookupRef s (.dialog d) = some v from hv]

/-- After get-or-assign, the reference is registered with the returned
handle. -/
theorem lookupRef_getHandleRef (s : State) (r : ObjRef) :
    lookupRef (getHandleRef s r).2 r = some (getHandleRef s r).1 := by
  rw [getHandleRef_eq]
  cases hl : lookupRef s r with
  | some h => simpa using hl
  | none => simp [lookupRef_bumpRef]

/-- Registry monotonicity: the counter does not decrease and existing
registrations are preserved with their values. This holds for every
operation of the synchronization family (everything except the factory
methods' unconditional overwrite). -/
def RegMono (s s' : State) : Prop :=
  s.currentHandle ≤ s'.currentHandle ∧
  ∀ r v, lookupRef s r = some v → lookupRef s' r = some v

theorem regMono_refl {s : State} : RegMono s s := ⟨le_refl _, fun _ _ h => h⟩

theorem regMono_trans {a b c : State} (h1 : RegMono a b) (h2 : RegMono b c) :
    RegMono a c :=
  ⟨le_trans h1.1 h2.1, fun r v h => h2.2 r v (h1.2 r v h)⟩

/-- Registry invariant: every registered handle is below the counter, and
no two distinct references are registered with the same handle. -/
def Inv (s : State) : Prop :=
  (∀ r v, lookupRef s r = some v → v < s.currentHandle) ∧
  (∀ r1 r2 v, lookupRef s r1 = some v → lookupRef s r2 = some v → r1 = r2)

theorem Inv.init : Inv initState := by
  constructor
  · intro r v h; cases r <;> simp [lookupRef, initState, List.lookup] at h
  · intro r1 r2 v h1 h2; cases r1 <;> simp [lookupRef, initState, List.lookup] at h1

theorem Inv.bumpRef {s : State} (hs : Inv s) (r : ObjRef) : Inv (bumpRef s r) := by
  constructor
  · intro r' v h
    rw [lookupRef_bumpRef] at h
    rw [currentHandle_bumpRef]
    by_cases hr : r' = r
    · simp [hr] at h; omega
    · simp [hr] at h
      exact lt_trans (hs.1 r' v h) (Nat.lt_succ_self _)
  · intro r1 r2 v h1 h2
    rw [lookupRef_bumpRef] at h1 h2
    by_cases hr1 : r1 = r
    · by_cases hr2 : r2 = r
      · rw [hr1, hr2]
      · simp [hr1, hr2] at h1 h2
        have := hs.1 r2 v h2
        omega
    · by_cases hr2 : r2 = r
      · simp [hr1, hr2] at h1 h2
        have := hs.1 r1 v h1
        omega
      · simp [hr1, hr2] at h1 h2
        exact hs.2 r1 r2 v h1 h2

theorem RegMono.bumpRef_of_miss {s : State} {r : ObjRef}
    (h : lookupRef s r = none) : RegMono s (bumpRef s r) := by
  constructor
  · rw [currentHandle_bumpRef]; omega
  · intro r' v hv
    rw [lookupRef_bumpRef]
    by_cases hr : r' = r
    · rw [hr] at hv; rw [hv] at h; cases h
    · simpa [hr] using hv

theorem regMono_getHandleRef (s : State) (r : ObjRef) :
    RegMono s (getHandleRef s r).2 := by
  rw [getHandleRef_eq]
  cases hl : lookupRef s r with
  | some h => exact regMono_refl
  | none => exact RegMono.bumpRef_of_miss hl

theorem inv_getHandleRef {s : State} (hs : Inv s) (r : ObjRef) :
    Inv (getHandleRef s r).2 := by
  rw [getHandleRef_eq]
  cases hl : lookupRef s r with
  | some h => exact hs
  | none => exact hs.bumpRef r

/-- The registries (and counter) determine `Inv`. -/
theorem Inv.of_regEq {s s' : State} (h : ∀ r, lookupRef s' r = lookupRef s r)
    (hc : s'.currentHandle = s.currentHandle) (hs : Inv s) : Inv s' := by
  constructor
  · intro r v hv; rw [h] at hv; rw [hc]; exact hs.1 r v hv
  · intro r1 r2 v h1 h2; rw [h] at h1 h2; exact hs.2 r1 r2 v h1 h2

theorem sendMsg_lookupRef (s : State) (m : Message) (r : ObjRef) :
    lookupRef (sendMsg s m) r = lookupRef s r := by
  cases r <;> rfl

/-- Get-or-assign touches nothing but the registry of its kind and the
counter. -/
theorem getHandleRef_aux (s : State) (r : ObjRef) :
    (getHandleRef s r).2.dialogs = s.dialogs ∧
    (getHandleRef s r).2.tabs = s.tabs ∧
    (getHandleRef s r).2.buttons = s.buttons ∧
    (getHandleRef s r).2.messages = s.messages ∧
    (getHandleRef s r).2.onClickCallbacks = s.onClickCallbacks ∧
    (getHandleRef s r).2.firedClicks = s.firedClicks ∧
    (getHandleRef s r).2.nextObjId = s.nextObjId := by
  rw [getHandleRef_eq]
  cases hl : lookupRef s r with
  | some h => exact ⟨rfl, rfl, rfl, rfl, rfl, rfl, rfl⟩
  | none => cases r <;> simp [bumpRef]

theorem findButton_getHandleRef (s : State) (r : ObjRef) (b : Nat) :
    findButton (getHandleRef s r).2 b = findButton s b := by
  unfold findButton; rw [(getHandleRef_aux s r).2.2.1]

theorem findTab_getHandleRef (s : State) (r : ObjRef) (t : Nat) :
    findTab (getHandleRef s r).2 t = findTab s t := by
  unfold findTab; rw [(getHandleRef_aux s r).2.1]

/-- The heap is untouched by an operation (the fields the synchronization
family never writes). -/
def HeapEq (s s' : State) : Prop :=
  s'.dialogs = s.dialogs ∧ s'.tabs = s.tabs ∧ s'.buttons = s.buttons

theorem heapEq_refl {s : State} : HeapEq s s := ⟨Eq.refl _, Eq.refl _, Eq.refl _⟩

theorem heapEq_trans {a b c : State} (h1 : HeapEq a b) (h2 : HeapEq b c) :
    HeapEq a c := by
  exact ⟨h2.1.trans h1.1, h2.2.1.trans h1.2.1, h2.2.2.trans h1.2.2⟩

/-- One `updateButton` call: appends exactly one `$setButtonDetails` keyed
by the button's (get-or-assign) handle and carrying its current fields,
registers the button under that handle, preserves existing registrations,
and leaves the heap alone. -/
theorem updateButton_spec (s : State) (b : Nat) :
    (updateButton s b).messages = s.messages ++
      [Message.setButtonDetails (getButtonHandle s b).1 (findButton s b).label (findButton s b).enabled] ∧
    lookupRef (updateButton s b) (.button b) = some (getButtonHandle s b).1 ∧
    RegMono s (updateButton s b) ∧
    HeapEq s (updateButton s b) ∧
    (updateButton s b).onClickCallbacks = s.onClickCallbacks := by
  unfold updateButton
  rw [getButtonHandle_as_ref]
  refine ⟨?_, ?_, ?_, ?_, ?_⟩
  · simp [sendMsg, (getHandleRef_aux s (.button b)).2.2.2.1,
      findButton_getHandleRef]
  · rw [sendMsg_lookupRef, lookupRef_getHandleRef]
  · refine regMono_trans (regMono_getHandleRef s (.button b)) ?_
    exact ⟨le_refl _, fun r v hv => by rwa [sendMsg_lookupRef]⟩
  · have h := getHandleRef_aux s (.button b)
    exact ⟨h.1, h.2.1, h.2.2.1⟩
  · simp [sendMsg, (getHandleRef_aux s (.button b)).2.2.2.2.1]

/-- One `updateTabContent` call: the tab analogue of `updateButton_spec`. -/
theorem updateTabContent_spec (s : State) (t : Nat) :
    (updateTabContent s t).messages = s.messages ++
      [Message.setTabDetails (getTabHandle s t).1 (findTab s t).title (findTab s t).content] ∧
    lookupRef (updateTabContent s t) (.tab t) = some (getTabHandle s t).1 ∧
    RegMono s (updateTabContent s t) ∧
    HeapEq s (updateTabContent s t) ∧
    (updateTabContent s t).onClickCallbacks = s.onClickCallbacks := by
  unfold updateTabContent
  rw [getTabHandle_as_ref]
  refine ⟨?_, ?_, ?_, ?_, ?_⟩
  · simp [sendMsg, (getHandleRef_aux s (.tab t)).2.2.2.1, findTab_getHandleRef]
  · rw [sendMsg_lookupRef, lookupRef_getHandleRef]
  · refine regMono_trans (regMono_getHandleRef s (.tab t)) ?_
    exact ⟨le_refl _, fun r v hv => by rwa [sendMsg_lookupRef]⟩
  · have h := getHandleRef_aux s (.tab t)
    exact ⟨h.1, h.2.1, h.2.2.1⟩
  · simp [sendMsg, (getHandleRef_aux s (.tab t)).2.2.2.2.1]

theorem inv_sendMsg {s : State} (hs : Inv s) (m : Message) : Inv (sendMsg s m) :=
  Inv.of_regEq (sendMsg_lookupRef s m) rfl hs

theorem inv_updateButton {s : State} (hs : Inv s) (b : Nat) :
    Inv (updateButton s b) := by
  unfold updateButton
  rw [getButtonHandle_as_ref]
  exact inv_sendMsg (inv_getHandleRef hs (.button b)) _

theorem inv_updateTabContent {s : State} (hs : Inv s) (t : Nat) :
    Inv (updateTabContent s t) := by
  unfold updateTabContent
  rw [getTabHandle_as_ref]
  exact inv_sendMsg (inv_getHandleRef hs (.tab t)) _

theorem buttonHandleOf_eq {s : State} {b k : Nat}
    (h : lookupRef s (.button b) = some k) : buttonHandleOf s b = k := by
  unfold buttonHandleOf
  rw [show s.buttonHandles.lookup b = some k from h]
  rfl

theorem tabHandleOf_eq {s : State} {t k : Nat}
    (h : lookupRef s (.tab t) = some k) : tabHandleOf s t = k := by
  unfold tabHandleOf
  rw [show s.tabHandles.lookup t = some k from h]
  rfl

theorem dialogHandleOf_eq {s : State} {d k : Nat}
    (h : lookupRef s (.dialog d) = some k) : dialogHandleOf s d = k := by
  unfold dialogHandleOf
  rw [show s.dialogHandles.lookup d = some k from h]
  rfl

theorem findButton_of_heapEq {s s' : State} (h : HeapEq s s') (b : Nat) :
    findButton s' b = findButton s b := by
  unfold findButton; rw [h.2.2]

theorem findTab_of_heapEq {s s' : State} (h : HeapEq s s') (t : Nat) :
    findTab s' t = findTab s t := by
  unfold findTab; rw [h.2.1]

/-- A `forEach`-style run of `updateButton` over a list of buttons: it is
registry-monotone, heap-preserving, registers every element, and — read
against any later state `sE` the registries evolve into — appends exactly
one `$setButtonDetails` per element, in list order, keyed by the handle
`sE` registers for that element. -/
theorem foldl_updateButton_spec (bs : List Nat) (s : State) :
    RegMono s (bs.foldl updateButton s) ∧
    HeapEq s (bs.foldl updateButton s) ∧
    (bs.foldl updateButton s).onClickCallbacks = s.onClickCallbacks ∧
    (∀ b ∈ bs, ∃ v, lookupRef (bs.foldl updateButton s) (.button b) = some v) ∧
    ∀ sE, RegMono (bs.foldl updateButton s) sE →
      (bs.foldl updateButton s).messages = s.messages ++
        bs.map (fun b => Message.setButtonDetails (buttonHandleOf sE b)
          (findButton s b).label (findButton s b).enabled) := by
  induction bs generalizing s with
  | nil =>
    refine ⟨regMono_refl, heapEq_refl, rfl, by simp, ?_⟩
    intro sE _
    simp [List.foldl]
  | cons b bs ih =>
    obtain ⟨hm, hp, hr, hc, hlook⟩ := updateButton_spec s b
    obtain ⟨ihm, ihh, ihc, ihpres, ihmsg⟩ := ih (updateButton s b)
    have hfold : (b :: bs).foldl updateButton s = bs.foldl updateButton (updateButton s b) := rfl
    refine ⟨?_, ?_, ?_, ?_, ?_⟩
    · rw [hfold]; exact regMono_trans hr ihm
    · rw [hfold]; exact heapEq_trans hc ihh
    · rw [hfold, ihc, hlook]
    · intro y hy
      rw [List.mem_cons] at hy
      rcases hy with h1 | h2
      · subst h1
        exact ⟨(getButtonHandle s y).1, ihm.2 _ _ hp⟩
      · exact ihpres y h2
    · intro sE hE
      rw [hfold, ihmsg sE hE, hm]
      have hkey : buttonHandleOf sE b = (getButtonHandle s b).1 :=
        buttonHandleOf_eq (hE.2 _ _ (ihm.2 _ _ hp))
      have hfb : ∀ x, findButton (updateButton s b) x = findButton s x :=
        fun x => findButton_of_heapEq hc x
      simp [hkey, hfb, List.append_assoc]

/-- The tab analogue of `foldl_updateButton_spec`. -/
theorem foldl_updateTabContent_spec (ts : List Nat) (s : State) :
    RegMono s (ts.foldl updateTabContent s) ∧
    HeapEq s (ts.foldl updateTabContent s) ∧
    (ts.foldl updateTabContent s).onClickCallbacks = s.onClickCallbacks ∧
    (∀ t ∈ ts, ∃ v, lookupRef (ts.foldl updateTabContent s) (.tab t) = some v) ∧
    ∀ sE, RegMono (ts.foldl updateTabContent s) sE →
      (ts.foldl updateTabContent s).messages = s.messages ++
        ts.map (fun t => Message.setTabDetails (tabHandleOf sE t)
          (findTab s t).title (findTab s t).content) := by
  induction ts generalizing s with
  | nil =>
    refine ⟨regMono_refl, heapEq_refl, rfl, by simp, ?_⟩
    intro sE _
    simp [List.foldl]
  | cons t ts ih =>
    obtain ⟨hm, hp, hr, hc, hlook⟩ := updateTabContent_spec s t
    obtain ⟨ihm, ihh, ihc, ihpres, ihmsg⟩ := ih (updateTabContent s t)
    have hfold : (t :: ts).foldl updateTabContent s = ts.foldl updateTabContent (updateTabContent s t) := rfl
    refine ⟨?_, ?_, ?_, ?_, ?_⟩
    · rw [hfold]; exact regMono_trans hr ihm
    · rw [hfold]; exact heapEq_trans hc ihh
    · rw [hfold, ihc, hlook]
    · intro y hy
      rw [List.mem_cons] at hy
      rcases hy with h1 | h2
      · subst h1
        exact ⟨(getTabHandle s y).1, ihm.2 _ _ hp⟩
      · exact ihpres y h2
    · intro sE hE
      rw [hfold, ihmsg sE hE, hm]
      have hkey : tabHandleOf sE t = (getTabHandle s t).1 :=
        tabHandleOf_eq (hE.2 _ _ (ihm.2 _ _ hp))
      have hft : ∀ x, findTab (updateTabContent s t) x = findTab s x :=
        fun x => findTab_of_heapEq hc x
      simp [hkey, hft, List.append_assoc]

/-- When every listed tab is already registered, the state-threaded
handle-map of the `$setDialogDetails` assembly reads the stored handles
and does not change the state. -/
theorem mapGetTabHandles_of_present (ts : List Nat) (s : State)
    (h : ∀ t ∈ ts, ∃ v, lookupRef s (.tab t) = some v) :
    mapGetTabHandles s ts = (ts.map (tabHandleOf s), s) := by
  induction ts with
  | nil => rfl
  | cons t ts ih =>
    obtain ⟨v, hv⟩ := h t (by simp)
    have hget : getTabHandle s t = (v, s) := by
      rw [getTabHandle_as_ref, getHandleRef_eq, hv]
    have ihh := ih (fun t' ht' => h t' (by simp [ht']))
    simp [mapGetTabHandles, hget, ihh, tabHandleOf_eq hv]

/-- When every listed button is already registered, the custom-buttons
handle-map of the assembly reads the stored handles and does not change
the state. -/
theorem mapGetButtonHandles_of_present (bs : List Nat) (s : State)
    (h : ∀ b ∈ bs, ∃ v, lookupRef s (.button b) = some v) :
    mapGetButtonHandles s bs = (bs.map (buttonHandleOf s), s) := by
  induction bs with
  | nil => rfl
  | cons b bs ih =>
    obtain ⟨v, hv⟩ := h b (by simp)
    have hget : getButtonHandle s b = (v, s) := by
      rw [getButtonHandle_as_ref, getHandleRef_eq, hv]
    have ihh := ih (fun b' hb' => h b' (by simp [hb']))
    simp [mapGetButtonHandles, hget, ihh, buttonHandleOf_eq hv]

/-- The wire `content` value assembled from a dialog content and the tab
handles computed for it. -/
def wireRaw (c : DContent) (hs : List Nat) : WireContent :=
  match c with
  | .undef => .undef
  | .str x => .str x
  | .tabs _ => .tabs hs

/-- The wire `customButtons` value assembled from the field and the
computed handles. -/
def custRaw (c : Option (List Nat)) (hs : List Nat) : Option (List Nat) :=
  match c with
  | some _ => some hs
  | none => none

theorem wireRaw_map (sE : State) (c : DContent) :
    wireRaw c ((contentTabs c).map (tabHandleOf sE)) = wireContentOf sE c := by
  cases c <;> rfl

theorem custRaw_map (sE : State) (c : Option (List Nat)) :
    custRaw c ((customList c).map (buttonHandleOf sE)) =
      c.map (fun l => l.map (buttonHandleOf sE)) := by
  cases c <;> rfl

theorem sendMsg_regMono (s : State) (m : Message) : RegMono s (sendMsg s m) :=
  ⟨le_refl _, fun r v h => by rwa [sendMsg_lookupRef]⟩

theorem sendMsg_heapEq (s : State) (m : Message) : HeapEq s (sendMsg s m) :=
  ⟨rfl, rfl, rfl⟩

/-- The child-synchronization phase of `updateDialogContent`: tabs of a
tab-array content in order, then custom buttons in order, then okButton,
then cancelButton. -/
def childSync (s : State) (obj : DialogObj) : State :=
  updateButton
    (updateButton
      ((customList obj.customButtons).foldl updateButton
        ((contentTabs obj.content).foldl updateTabContent s))
      obj.okButton)
    obj.cancelButton

/-- The child phase is registry-monotone and heap-preserving, registers
every synchronized child, and appends exactly the per-child messages in
phase order, keyed by the handles any later state registers for them. -/
theorem childSync_spec (s : State) (obj : DialogObj) :
    RegMono s (childSync s obj) ∧
    HeapEq s (childSync s obj) ∧
    (childSync s obj).onClickCallbacks = s.onClickCallbacks ∧
    ((∀ t ∈ contentTabs obj.content, ∃ v, lookupRef (childSync s obj) (.tab t) = some v) ∧
     (∀ b ∈ customList obj.customButtons, ∃ v, lookupRef (childSync s obj) (.button b) = some v) ∧
     (∃ v, lookupRef (childSync s obj) (.button obj.okButton) = some v) ∧
     (∃ v, lookupRef (childSync s obj) (.button obj.cancelButton) = some v)) ∧
    ∀ sE, RegMono (childSync s obj) sE →
      (childSync s obj).messages = s.messages
        ++ (contentTabs obj.content).map (fun t =>
             Message.setTabDetails (tabHandleOf sE t) (findTab s t).title (findTab s t).content)
        ++ (customList obj.customButtons).map (fun b =>
             Message.setButtonDetails (buttonHandleOf sE b) (findButton s b).label (findButton s b).enabled)
        ++ [Message.setButtonDetails (buttonHandleOf sE obj.okButton)
              (findButton s obj.okButton).label (findButton s obj.okButton).enabled,
            Message.setButtonDetails (buttonHandleOf sE obj.cancelButton)
              (findButton s obj.cancelButton).label (findButton s obj.cancelButton).enabled] := by
  obtain ⟨f1m, f1h, f1c, f1pres, f1msg⟩ :=
    foldl_updateTabContent_spec (contentTabs obj.content) s
  obtain ⟨f2m, f2h, f2c, f2pres, f2msg⟩ :=
    foldl_updateButton_spec (customList obj.customButtons)
      ((contentTabs obj.content).foldl updateTabContent s)
  obtain ⟨u3msg, u3look, u3m, u3h, u3c⟩ :=
    updateButton_spec
      ((customList obj.customButtons).foldl updateButton
        ((contentTabs obj.content).foldl updateTabContent s)) obj.okButton
  obtain ⟨u4msg, u4look, u4m, u4h, u4c⟩ :=
    updateButton_spec
      (updateButton
        ((customList obj.customButtons).foldl updateButton
          ((contentTabs obj.content).foldl updateTabContent s)) obj.okButton)
      obj.cancelButton
  have hcs : RegMono s (childSync s obj) :=
    regMono_trans (regMono_trans (regMono_trans f1m f2m) u3m) u4m
  refine ⟨hcs, heapEq_trans (heapEq_trans (heapEq_trans f1h f2h) u3h) u4h, ?_, ⟨?_, ?_, ?_, ?_⟩, ?_⟩
  · unfold childSync
    rw [u4c, u3c, f2c, f1c]
  · intro t ht
    obtain ⟨v, hv⟩ := f1pres t ht
    exact ⟨v, u4m.2 _ _ (u3m.2 _ _ (f2m.2 _ _ hv))⟩
  · intro b hb
    obtain ⟨v, hv⟩ := f2pres b hb
    exact ⟨v, u4m.2 _ _ (u3m.2 _ _ hv)⟩
  · exact ⟨_, u4m.2 _ _ u3look⟩
  · exact ⟨_, u4look⟩
  · intro sE hE
    have hE3 : RegMono (updateButton ((customList obj.customButtons).foldl updateButton ((contentTabs obj.content).foldl updateTabContent s)) obj.okButton) sE :=
      regMono_trans u4m hE
    have hE2 : RegMono ((customList obj.customButtons).foldl updateButton ((contentTabs obj.content).foldl updateTabContent s)) sE :=
      regMono_trans u3m hE3
    have hE1 : RegMono ((contentTabs obj.content).foldl updateTabContent s) sE :=
      regMono_trans f2m hE2
    have hkey3 : buttonHandleOf sE obj.okButton =
        (getButtonHandle ((customList obj.customButtons).foldl updateButton ((contentTabs obj.content).foldl updateTabContent s)) obj.okButton).1 :=
      buttonHandleOf_eq (hE3.2 _ _ u3look)
    have hkey4 : buttonHandleOf sE obj.cancelButton =
        (getButtonHandle (updateButton ((customList obj.customButtons).foldl updateButton ((contentTabs obj.content).foldl updateTabContent s)) obj.okButton) obj.cancelButton).1 :=
      buttonHandleOf_eq (hE.2 _ _ u4look)
    have hfb1 : ∀ x, findButton ((contentTabs obj.content).foldl updateTabContent s) x = findButton s x :=
      fun x => findButton_of_heapEq f1h x
    have hfb2 : ∀ x, findButton ((customList obj.customButtons).foldl updateButton ((contentTabs obj.content).foldl updateTabContent s)) x = findButton s x :=
      fun x => findButton_of_heapEq (heapEq_trans f1h f2h) x
    have hfb3 : ∀ x, findButton (updateButton ((customList obj.customButtons).foldl updateButton ((contentTabs obj.content).foldl updateTabContent s)) obj.okButton) x = findButton s x :=
      fun x => findButton_of_heapEq (heapEq_trans (heapEq_trans f1h f2h) u3h) x
    unfold childSync
    rw [u4msg, u3msg, f2msg sE hE2, f1msg sE hE1, hkey3, hkey4, hfb2, hfb3]
    simp [hfb1, List.append_assoc]

/-- Normal form of `updateDialogContent` on a known dialog: the child
phase is `childSync`, and the content/customButtons matches are expressed
uniformly through `contentTabs`, `customList`, `wireRaw` and `custRaw`
(a fold or a map over the empty list when the content is not a tab
array). -/
theorem updateDialogContent_eq (s : State) (d : Nat) (obj : DialogObj)
    (hfind : s.dialogs.lookup d = some obj) :
    updateDialogContent s d =
      (let p := getDialogHandle s d
       let s4 := childSync p.2 obj
       let q1 := getButtonHandle s4 obj.okButton
       let q2 := getButtonHandle q1.2 obj.cancelButton
       let r3 := mapGetTabHandles q2.2 (contentTabs obj.content)
       let r4 := mapGetButtonHandles r3.2 (customList obj.customButtons)
       sendMsg r4.2 (.setDialogDetails p.1
         ⟨obj.title, q1.1, q2.1, wireRaw obj.content r3.1,
          custRaw obj.customButtons r4.1⟩)) := by
  obtain ⟨ti, co, ok, ca, cu⟩ := obj
  cases co <;> cases cu <;>
    simp [updateDialogContent, hfind, childSync, contentTabs, customList,
      wireRaw, custRaw, mapGetTabHandles, mapGetButtonHandles]

/-- Collapse of the `$setDialogDetails` assembly: after the child phase,
every referenced child is registered, so each get-or-assign in the object
literal is a pure read of the stored handle. -/
theorem updateDialogContent_collapse (s : State) (d : Nat) (obj : DialogObj)
    (hfind : s.dialogs.lookup d = some obj) :
    updateDialogContent s d =
      sendMsg (childSync (getDialogHandle s d).2 obj)
        (.setDialogDetails (getDialogHandle s d).1
          ⟨obj.title,
           buttonHandleOf (childSync (getDialogHandle s d).2 obj) obj.okButton,
           buttonHandleOf (childSync (getDialogHandle s d).2 obj) obj.cancelButton,
           wireContentOf (childSync (getDialogHandle s d).2 obj) obj.content,
           obj.customButtons.map (fun l =>
             l.map (buttonHandleOf (childSync (getDialogHandle s d).2 obj)))⟩) := by
  obtain ⟨cm, ch, cc, ⟨prT, prB, ⟨vO, hO⟩, ⟨vC, hC⟩⟩, cmsg⟩ :=
    childSync_spec (getDialogHandle s d).2 obj
  have hq1 : getButtonHandle (childSync (getDialogHandle s d).2 obj) obj.okButton =
      (buttonHandleOf (childSync (getDialogHandle s d).2 obj) obj.okButton,
       childSync (getDialogHandle s d).2 obj) := by
    rw [getButtonHandle_as_ref, getHandleRef_eq, hO, buttonHandleOf_eq hO]
  have hq2 : getButtonHandle (childSync (getDialogHandle s d).2 obj) obj.cancelButton =
      (buttonHandleOf (childSync (getDialogHandle s d).2 obj) obj.cancelButton,
       childSync (getDialogHandle s d).2 obj) := by
    rw [getButtonHandle_as_ref, getHandleRef_eq, hC, buttonHandleOf_eq hC]
  have hr3 : mapGetTabHandles (childSync (getDialogHandle s d).2 obj) (contentTabs obj.content) =
      ((contentTabs obj.content).map (tabHandleOf (childSync (getDialogHandle s d).2 obj)),
       childSync (getDialogHandle s d).2 obj) :=
    mapGetTabHandles_of_present _ _ prT
  have hr4 : mapGetButtonHandles (childSync (getDialogHandle s d).2 obj) (customList obj.customButtons) =
      ((customList obj.customButtons).map (buttonHandleOf (childSync (getDialogHandle s d).2 obj)),
       childSync (getDialogHandle s d).2 obj) :=
    mapGetButtonHandles_of_present _ _ prB
  rw [updateDialogContent_eq s d obj hfind]
  simp only [hq1, hq2, hr3, hr4, wireRaw_map, custRaw_map]

/-- Full characterization of `updateDialogContent` on a known dialog:
registry-monotone, heap-preserving, callback-table-preserving, and the
emitted messages are exactly the per-child details messages in phase
order followed by the single `$setDialogDetails`, all keyed consistently
by the handles any later state registers. -/
theorem updateDialogContent_spec (s : State) (d : Nat) (obj : DialogObj)
    (hfind : s.dialogs.lookup d = some obj) :
    RegMono s (updateDialogContent s d) ∧
    HeapEq s (updateDialogContent s d) ∧
    (updateDialogContent s d).onClickCallbacks = s.onClickCallbacks ∧
    ∀ sE, RegMono (updateDialogContent s d) sE →
      (updateDialogContent s d).messages = s.messages
        ++ (contentTabs obj.content).map (fun t =>
             Message.setTabDetails (tabHandleOf sE t) (findTab s t).title (findTab s t).content)
        ++ (customList obj.customButtons).map (fun b =>
             Message.setButtonDetails (buttonHandleOf sE b) (findButton s b).label (findButton s b).enabled)
        ++ [Message.setButtonDetails (buttonHandleOf sE obj.okButton)
              (findButton s obj.okButton).label (findButton s obj.okButton).enabled,
            Message.setButtonDetails (buttonHandleOf sE obj.cancelButton)
              (findButton s obj.cancelButton).label (findButton s obj.cancelButton).enabled,
            Message.setDialogDetails (dialogHandleOf sE d)
              ⟨obj.title, buttonHandleOf sE obj.okButton, buttonHandleOf sE obj.cancelButton,
               wireContentOf sE obj.content,
               obj.customButtons.map (fun l => l.map (buttonHandleOf sE))⟩] := by
  obtain ⟨cm, ch, cc, ⟨prT, prB, ⟨vO, hO⟩, ⟨vC, hC⟩⟩, cmsg⟩ :=
    childSync_spec (getDialogHandle s d).2 obj
  have hgm : RegMono s (getDialogHandle s d).2 := by
    rw [getDialogHandle_as_ref]; exact regMono_getHandleRef s (.dialog d)
  have hgd : lookupRef (getDialogHandle s d).2 (.dialog d) = some (getDialogHandle s d).1 := by
    rw [getDialogHandle_as_ref]; exact lookupRef_getHandleRef s (.dialog d)
  have hgaux := getHandleRef_aux s (.dialog d)
  have hgh : HeapEq s (getDialogHandle s d).2 := by
    rw [getDialogHandle_as_ref]; exact ⟨hgaux.1, hgaux.2.1, hgaux.2.2.1⟩
  have hcol := updateDialogContent_collapse s d obj hfind
  rw [hcol]
  refine ⟨?_, ?_, ?_, ?_⟩
  · exact regMono_trans (regMono_trans hgm cm) (sendMsg_regMono _ _)
  · exact heapEq_trans (heapEq_trans hgh ch) (sendMsg_heapEq _ _)
  · show (sendMsg _ _).onClickCallbacks = s.onClickCallbacks
    rw [show ∀ (x : State) (m : Message), (sendMsg x m).onClickCallbacks = x.onClickCallbacks from fun x m => rfl]
    rw [cc]
    rw [getDialogHandle_as_ref]
    exact (getHandleRef_aux s (.dialog d)).2.2.2.2.1
  · intro sE hE
    have hEc : RegMono (childSync (getDialogHandle s d).2 obj) sE :=
      regMono_trans (sendMsg_regMono _ _) hE
    have hmsgs := cmsg sE hEc
    have hfbA : ∀ x, findButton (getDialogHandle s d).2 x = findButton s x :=
      fun x => findButton_of_heapEq hgh x
    have hftA : ∀ x, findTab (getDialogHandle s d).2 x = findTab s x :=
      fun x => findTab_of_heapEq hgh x
    have hmsgA : (getDialogHandle s d).2.messages = s.messages := by
      rw [getDialogHandle_as_ref]; exact (getHandleRef_aux s (.dialog d)).2.2.2.1
    have hhd : dialogHandleOf sE d = (getDialogHandle s d).1 :=
      dialogHandleOf_eq (hEc.2 _ _ (cm.2 _ _ hgd))
    have hok : buttonHandleOf sE obj.okButton =
        buttonHandleOf (childSync (getDialogHandle s d).2 obj) obj.okButton := by
      rw [buttonHandleOf_eq hO, buttonHandleOf_eq (hEc.2 _ _ hO)]
    have hcan : buttonHandleOf sE obj.cancelButton =
        buttonHandleOf (childSync (getDialogHandle s d).2 obj) obj.cancelButton := by
      rw [buttonHandleOf_eq hC, buttonHandleOf_eq (hEc.2 _ _ hC)]
    have hwire : wireContentOf (childSync (getDialogHandle s d).2 obj) obj.content =
        wireContentOf sE obj.content := by
      cases hco : obj.content with
      | undef => rfl
      | str x => rfl
      | tabs ts =>
        simp only [wireContentOf]
        congr 1
        refine List.map_congr_left ?_
        intro t ht
        obtain ⟨v, hv⟩ := prT t (by rw [hco]; exact ht)
        rw [tabHandleOf_eq hv, tabHandleOf_eq (hEc.2 _ _ hv)]
    have hcust : obj.customButtons.map (fun l =>
          l.map (buttonHandleOf (childSync (getDialogHandle s d).2 obj))) =
        obj.customButtons.map (fun l => l.map (buttonHandleOf sE)) := by
      cases hcu : obj.customButtons with
      | none => rfl
      | some bs =>
        have : bs.map (buttonHandleOf (childSync (getDialogHandle s d).2 obj)) =
            bs.map (buttonHandleOf sE) := by
          refine List.map_congr_left ?_
          intro b hb
          obtain ⟨v, hv⟩ := prB b (by rw [hcu]; exact hb)
          rw [buttonHandleOf_eq hv, buttonHandleOf_eq (hEc.2 _ _ hv)]
        simp [this]
    show (sendMsg _ _).messages = _
    rw [show ∀ (x : State) (m : Message), (sendMsg x m).messages = x.messages ++ [m] from fun x m => rfl]
    rw [hmsgs, hmsgA, hhd, hok, hcan, hwire, hcust]
    simp [hfbA, hftA, List.append_assoc]

/-! The claim theorems. -/

/-- C1: `open(dialog)` emits, in order, one `$setTabDetails` for each tab
of a tab-sequence content (in sequence order), one `$setButtonDetails`
for each custom button (in sequence order), one for okButton, one for
cancelButton, then a single `$setDialogDetails` whose payload references
exactly the handles keying those children's messages, then the `$open`
directive carrying the dialog's handle — so every child's details message
precedes the parent message that references its handle. -/
theorem open_emits_children_before_parent (s : State) (d : Nat) (obj : DialogObj)
    (hfind : s.dialogs.lookup d = some obj) :
    (openDialog s d).messages = s.messages
      ++ (contentTabs obj.content).map (fun t =>
           Message.setTabDetails (tabHandleOf (openDialog s d) t)
             (findTab s t).title (findTab s t).content)
      ++ (customList obj.customButtons).map (fun b =>
           Message.setButtonDetails (buttonHandleOf (openDialog s d) b)
             (findButton s b).label (findButton s b).enabled)
      ++ [Message.setButtonDetails (buttonHandleOf (openDialog s d) obj.okButton)
            (findButton s obj.okButton).label (findButton s obj.okButton).enabled,
          Message.setButtonDetails (buttonHandleOf (openDialog s d) obj.cancelButton)
            (findButton s obj.cancelButton).label (findButton s obj.cancelButton).enabled,
          Message.setDialogDetails (dialogHandleOf (openDialog s d) d)
            ⟨obj.title,
             buttonHandleOf (openDialog s d) obj.okButton,
             buttonHandleOf (openDialog s d) obj.cancelButton,
             wireContentOf (openDialog s d) obj.content,
             obj.customButtons.map (fun l => l.map (buttonHandleOf (openDialog s d)))⟩,
          Message.openMsg (dialogHandleOf (openDialog s d) d)] := by
  have hopen : openDialog s d =
      sendMsg (updateDialogContent (getDialogHandle s d).2 d)
        (.openMsg (getDialogHandle s d).1) := rfl
  have hgaux := getHandleRef_aux s (.dialog d)
  have hfindA : (getDialogHandle s d).2.dialogs.lookup d = some obj := by
    rw [getDialogHandle_as_ref, hgaux.1]; exact hfind
  obtain ⟨um, uh, uc, umsg⟩ := updateDialogContent_spec (getDialogHandle s d).2 d obj hfindA
  have hE : RegMono (updateDialogContent (getDialogHandle s d).2 d) (openDialog s d) := by
    rw [hopen]; exact sendMsg_regMono _ _
  have hmsgs := umsg (openDialog s d) hE
  have hgd : lookupRef (getDialogHandle s d).2 (.dialog d) = some (getDialogHandle s d).1 := by
    rw [getDialogHandle_as_ref]; exact lookupRef_getHandleRef s (.dialog d)
  have hhd : dialogHandleOf (openDialog s d) d = (getDialogHandle s d).1 :=
    dialogHandleOf_eq (hE.2 _ _ (um.2 _ _ hgd))
  have hgh : HeapEq s (getDialogHandle s d).2 := by
    rw [getDialogHandle_as_ref]; exact ⟨hgaux.1, hgaux.2.1, hgaux.2.2.1⟩
  have hmsgA : (getDialogHandle s d).2.messages = s.messages := by
    rw [getDialogHandle_as_ref]; exact hgaux.2.2.2.1
  have hfbA : ∀ x, findButton (getDialogHandle s d).2 x = findButton s x :=
    fun x => findButton_of_heapEq hgh x
  have hftA : ∀ x, findTab (getDialogHandle s d).2 x = findTab s x :=
    fun x => findTab_of_heapEq hgh x
  conv_lhs => rw [hopen]
  rw [show ∀ (x : State) (m : Message), (sendMsg x m).messages = x.messages ++ [m] from fun x m => rfl]
  rw [hmsgs, hmsgA, ← hhd]
  simp [hfbA, hftA, List.append_assoc]

/-! Registry monotonicity and invariant preservation for every public
operation, used for the allocator and identity-keying claims. -/

theorem regMono_of_lookupRef_eq {s s' : State} (hc : s'.currentHandle = s.currentHandle)
    (h : ∀ r, lookupRef s' r = lookupRef s r) : RegMono s s' :=
  ⟨le_of_eq hc.symm, fun r v hv => by rw [h]; exact hv⟩

theorem regMono_setButtonLabel (s : State) (b : Nat) (lbl : String) :
    RegMono s (setButtonLabel s b lbl) := by
  have h1 : RegMono s { s with buttons := assocUpdate s.buttons b (fun o => { o with label := some lbl }) } :=
    regMono_of_lookupRef_eq rfl (fun r => by cases r <;> rfl)
  have h2 : RegMono { s with buttons := assocUpdate s.buttons b (fun o => { o with label := some lbl }) } (setButtonLabel s b lbl) :=
    (updateButton_spec { s with buttons := assocUpdate s.buttons b (fun o => { o with label := some lbl }) } b).2.2.1
  exact regMono_trans h1 h2

theorem regMono_setButtonEnabled (s : State) (b : Nat) (v : Bool) :
    RegMono s (setButtonEnabled s b v) := by
  have h1 : RegMono s { s with buttons := assocUpdate s.buttons b (fun o => { o with enabled := v }) } :=
    regMono_of_lookupRef_eq rfl (fun r => by cases r <;> rfl)
  have h2 : RegMono { s with buttons := assocUpdate s.buttons b (fun o => { o with enabled := v }) } (setButtonEnabled s b v) :=
    (updateButton_spec { s with buttons := assocUpdate s.buttons b (fun o => { o with enabled := v }) } b).2.2.1
  exact regMono_trans h1 h2

theorem regMono_registerOnClickCallback (s : State) (b cb : Nat) :
    RegMono s (registerOnClickCallback s b cb) := by
  have h1 : RegMono s (getButtonHandle s b).2 := by
    rw [getButtonHandle_as_ref]; exact regMono_getHandleRef s (.button b)
  have h2 : RegMono (getButtonHandle s b).2 (registerOnClickCallback s b cb) :=
    regMono_of_lookupRef_eq rfl (fun r => by cases r <;> rfl)
  exact regMono_trans h1 h2

theorem regMono_updateDialogContent (s : State) (d : Nat) :
    RegMono s (updateDialogContent s d) := by
  cases hl : s.dialogs.lookup d with
  | none =>
    have h : updateDialogContent s d = s := by unfold updateDialogContent; rw [hl]
    rw [h]; exact regMono_refl
  | some obj =>
    rw [updateDialogContent_collapse s d obj hl]
    have h1 : RegMono s (getDialogHandle s d).2 := by
      rw [getDialogHandle_as_ref]; exact regMono_getHandleRef s (.dialog d)
    exact regMono_trans h1 (regMono_trans (childSync_spec (getDialogHandle s d).2 obj).1 (sendMsg_regMono _ _))

theorem regMono_openDialog (s : State) (d : Nat) : RegMono s (openDialog s d) := by
  have h1 : RegMono s (getDialogHandle s d).2 := by
    rw [getDialogHandle_as_ref]; exact regMono_getHandleRef s (.dialog d)
  have h2 : RegMono (getDialogHandle s d).2 (updateDialogContent (getDialogHandle s d).2 d) :=
    regMono_updateDialogContent _ d
  have h3 : RegMono (updateDialogContent (getDialogHandle s d).2 d) (openDialog s d) :=
    sendMsg_regMono _ _
  exact regMono_trans h1 (regMono_trans h2 h3)

theorem regMono_closeDialog (s : State) (d : Nat) : RegMono s (closeDialog s d) := by
  have h1 : RegMono s (getDialogHandle s d).2 := by
    rw [getDialogHandle_as_ref]; exact regMono_getHandleRef s (.dialog d)
  have h2 : RegMono (getDialogHandle s d).2 (closeDialog s d) := sendMsg_regMono _ _
  exact regMono_trans h1 h2

/-- `createButton` bumps the counter (it is not registration-preserving:
it overwrites the setter-created binding, which is the C2/C4 anomaly). -/
theorem registerOnClickCallback_bumpRef_ctr (s : State) (b cb : Nat) :
    (registerOnClickCallback (bumpRef s (.button b)) b cb).currentHandle = s.currentHandle + 1 := by
  unfold registerOnClickCallback
  rw [getButtonHandle_hit (show (bumpRef s (.button b)).buttonHandles.lookup b = some s.currentHandle from lookup_cons_hit _ _ _)]
  show (bumpRef s (.button b)).currentHandle = s.currentHandle + 1
  exact currentHandle_bumpRef s (.button b)

theorem ctrMono_createButton (s : State) (label : String) :
    s.currentHandle ≤ (createButton s label).2.currentHandle := by
  have h1 : RegMono s { s with nextObjId := s.nextObjId + 1, buttons := (s.nextObjId, ⟨none, true⟩) :: s.buttons } :=
    regMono_of_lookupRef_eq rfl (fun r => by cases r <;> rfl)
  have h2 := regMono_setButtonLabel { s with nextObjId := s.nextObjId + 1, buttons := (s.nextObjId, ⟨none, true⟩) :: s.buttons } s.nextObjId label
  have h3 : (createButton s label).2.currentHandle =
      (registerOnClickCallback (bumpRef (setButtonLabel { s with nextObjId := s.nextObjId + 1, buttons := (s.nextObjId, ⟨none, true⟩) :: s.buttons } s.nextObjId label) (.button s.nextObjId)) s.nextObjId s.nextObjId).currentHandle := rfl
  have h6 := registerOnClickCallback_bumpRef_ctr (setButtonLabel { s with nextObjId := s.nextObjId + 1, buttons := (s.nextObjId, ⟨none, true⟩) :: s.buttons } s.nextObjId label) s.nextObjId s.nextObjId
  have h4 : ({ s with nextObjId := s.nextObjId + 1, buttons := (s.nextObjId, ⟨none, true⟩) :: s.buttons } : State).currentHandle = s.currentHandle := rfl
  have h5 := h1.1
  have h7 := h2.1
  omega

theorem ctrMono_createTab (s : State) (title : String) :
    s.currentHandle ≤ (createTab s title).2.currentHandle := by
  have h1 : RegMono s (setTabTitle { s with nextObjId := s.nextObjId + 1, tabs := (s.nextObjId, ⟨none, none⟩) :: s.tabs } s.nextObjId title) :=
    regMono_of_lookupRef_eq rfl (fun r => by cases r <;> rfl)
  have h3 : (createTab s title).2.currentHandle =
      (setTabTitle { s with nextObjId := s.nextObjId + 1, tabs := (s.nextObjId, ⟨none, none⟩) :: s.tabs } s.nextObjId title).currentHandle + 1 := rfl
  have h5 := h1.1
  omega

theorem ctrMono_createDialog (s : State) (title : String) :
    s.currentHandle ≤ (createDialog s title).2.currentHandle := by
  have h1 := ctrMono_createButton { s with nextObjId := s.nextObjId + 1 } "Done"
  have h2 := ctrMono_createButton (createButton { s with nextObjId := s.nextObjId + 1 } "Done").2 "Cancel"
  have h3 : (createDialog s title).2.currentHandle =
      (createButton (createButton { s with nextObjId := s.nextObjId + 1 } "Done").2 "Cancel").2.currentHandle + 1 := rfl
  have h4 : ({ s with nextObjId := s.nextObjId + 1 } : State).currentHandle = s.currentHandle := rfl
  omega

/-! Invariant preservation for every public operation. -/

theorem inv_setButtonLabel {s : State} (hs : Inv s) (b : Nat) (lbl : String) :
    Inv (setButtonLabel s b lbl) := by
  have h1 : Inv { s with buttons := assocUpdate s.buttons b (fun o => { o with label := some lbl }) } :=
    Inv.of_regEq (fun r => by cases r <;> rfl) rfl hs
  exact inv_updateButton h1 b

theorem inv_setButtonEnabled {s : State} (hs : Inv s) (b : Nat) (v : Bool) :
    Inv (setButtonEnabled s b v) := by
  have h1 : Inv { s with buttons := assocUpdate s.buttons b (fun o => { o with enabled := v }) } :=
    Inv.of_regEq (fun r => by cases r <;> rfl) rfl hs
  exact inv_updateButton h1 b

theorem inv_registerOnClickCallback {s : State} (hs : Inv s) (b cb : Nat) :
    Inv (registerOnClickCallback s b cb) := by
  have h1 : Inv (getButtonHandle s b).2 := by
    rw [getButtonHandle_as_ref]; exact inv_getHandleRef hs _
  exact Inv.of_regEq (fun r => by cases r <;> rfl) rfl h1

theorem inv_foldl_updateButton {s : State} (hs : Inv s) (bs : List Nat) :
    Inv (bs.foldl updateButton s) := by
  induction bs generalizing s with
  | nil => exact hs
  | cons b bs ih => exact ih (inv_updateButton hs b)

theorem inv_foldl_updateTabContent {s : State} (hs : Inv s) (ts : List Nat) :
    Inv (ts.foldl updateTabContent s) := by
  induction ts generalizing s with
  | nil => exact hs
  | cons t ts ih => exact ih (inv_updateTabContent hs t)

theorem inv_childSync {s : State} (hs : Inv s) (obj : DialogObj) :
    Inv (childSync s obj) :=
  inv_updateButton
    (inv_updateButton
      (inv_foldl_updateButton (inv_foldl_updateTabContent hs _) _) _) _

theorem inv_updateDialogContent {s : State} (hs : Inv s) (d : Nat) :
    Inv (updateDialogContent s d) := by
  cases hl : s.dialogs.lookup d with
  | none =>
    have h : updateDialogContent s d = s := by unfold updateDialogContent; rw [hl]
    rw [h]; exact hs
  | some obj =>
    rw [updateDialogContent_collapse s d obj hl]
    have h1 : Inv (getDialogHandle s d).2 := by
      rw [getDialogHandle_as_ref]; exact inv_getHandleRef hs _
    exact inv_sendMsg (inv_childSync h1 obj) _

theorem inv_openDialog {s : State} (hs : Inv s) (d : Nat) : Inv (openDialog s d) := by
  have h1 : Inv (getDialogHandle s d).2 := by
    rw [getDialogHandle_as_ref]; exact inv_getHandleRef hs _
  have h2 : Inv (sendMsg (updateDialogContent (getDialogHandle s d).2 d) (.openMsg (getDialogHandle s d).1)) :=
    inv_sendMsg (inv_updateDialogContent h1 d) _
  exact h2

theorem inv_closeDialog {s : State} (hs : Inv s) (d : Nat) : Inv (closeDialog s d) := by
  have h1 : Inv (getDialogHandle s d).2 := by
    rw [getDialogHandle_as_ref]; exact inv_getHandleRef hs _
  have h2 : Inv (sendMsg (getDialogHandle s d).2 (.closeMsg (getDialogHandle s d).1)) :=
    inv_sendMsg h1 _
  exact h2

theorem inv_createButton {s : State} (hs : Inv s) (label : String) :
    Inv (createButton s label).2 := by
  have h1 : Inv { s with nextObjId := s.nextObjId + 1, buttons := (s.nextObjId, ⟨none, true⟩) :: s.buttons } :=
    Inv.of_regEq (fun r => by cases r <;> rfl) rfl hs
  have h2 : Inv (setButtonLabel { s with nextObjId := s.nextObjId + 1, buttons := (s.nextObjId, ⟨none, true⟩) :: s.buttons } s.nextObjId label) :=
    inv_setButtonLabel h1 _ _
  have h3 : Inv (bumpRef (setButtonLabel { s with nextObjId := s.nextObjId + 1, buttons := (s.nextObjId, ⟨none, true⟩) :: s.buttons } s.nextObjId label) (.button s.nextObjId)) :=
    h2.bumpRef _
  have h4 : Inv (registerOnClickCallback (bumpRef (setButtonLabel { s with nextObjId := s.nextObjId + 1, buttons := (s.nextObjId, ⟨none, true⟩) :: s.buttons } s.nextObjId label) (.button s.nextObjId)) s.nextObjId s.nextObjId) :=
    inv_registerOnClickCallback h3 _ _
  exact h4

theorem inv_createTab {s : State} (hs : Inv s) (title : String) :
    Inv (createTab s title).2 := by
  have h1 : Inv (setTabTitle { s with nextObjId := s.nextObjId + 1, tabs := (s.nextObjId, ⟨none, none⟩) :: s.tabs } s.nextObjId title) :=
    Inv.of_regEq (fun r => by cases r <;> rfl) rfl hs
  have h2 : Inv (bumpRef (setTabTitle { s with nextObjId := s.nextObjId + 1, tabs := (s.nextObjId, ⟨none, none⟩) :: s.tabs } s.nextObjId title) (.tab s.nextObjId)) :=
    h1.bumpRef _
  exact h2

theorem inv_createDialog {s : State} (hs : Inv s) (title : String) :
    Inv (createDialog s title).2 := by
  have h0 : Inv ({ s with nextObjId := s.nextObjId + 1 } : State) :=
    Inv.of_regEq (fun r => by cases r <;> rfl) rfl hs
  have h1 : Inv (createButton { s with nextObjId := s.nextObjId + 1 } "Done").2 :=
    inv_createButton h0 _
  have h2 : Inv (createButton (createButton { s with nextObjId := s.nextObjId + 1 } "Done").2 "Cancel").2 :=
    inv_createButton h1 _
  have h3 : Inv (setDialogTitle { (createButton (createButton { s with nextObjId := s.nextObjId + 1 } "Done").2 "Cancel").2 with dialogs := (s.nextObjId, ⟨none, .undef, (createButton { s with nextObjId := s.nextObjId + 1 } "Done").1, (createButton (createButton { s with nextObjId := s.nextObjId + 1 } "Done").2 "Cancel").1, none⟩) :: (createButton (createButton { s with nextObjId := s.nextObjId + 1 } "Done").2 "Cancel").2.dialogs } s.nextObjId title) :=
    Inv.of_regEq (fun r => by cases r <;> rfl) rfl h2
  have h4 := h3.bumpRef (.dialog s.nextObjId)
  exact h4

theorem inv_applyOp {s : State} (hs : Inv s) (op : Op) : Inv (applyOp s op) := by
  cases op with
  | createDialogOp t => exact inv_createDialog hs t
  | createTabOp t => exact inv_createTab hs t
  | createButtonOp l => exact inv_createButton hs l
  | setLabelOp b lbl => exact inv_setButtonLabel hs b lbl
  | setEnabledOp b v => exact inv_setButtonEnabled hs b v
  | setDialogTitleOp d t => exact Inv.of_regEq (fun r => by cases r <;> rfl) rfl hs
  | setDialogContentOp d c => exact Inv.of_regEq (fun r => by cases r <;> rfl) rfl hs
  | setCustomButtonsOp d bs => exact Inv.of_regEq (fun r => by cases r <;> rfl) rfl hs
  | setTabTitleOp t x => exact Inv.of_regEq (fun r => by cases r <;> rfl) rfl hs
  | setTabContentOp t x => exact Inv.of_regEq (fun r => by cases r <;> rfl) rfl hs
  | openOp d => exact inv_openDialog hs d
  | closeOp d => exact inv_closeDialog hs d
  | updateDialogOp d => exact inv_updateDialogContent hs d
  | updateTabOp t => exact inv_updateTabContent hs t
  | updateButtonOp b => exact inv_updateButton hs b
  | registerOnClickOp b cb => exact inv_registerOnClickCallback hs b cb
  | onButtonClickOp h =>
    show Inv (match onButtonClick s h with | .ok s1 => s1 | .error _ => s)
    cases hcb : s.onClickCallbacks.lookup h with
    | some cb =>
      rw [show onButtonClick s h = .ok { s with firedClicks := s.firedClicks ++ [cb] } from by
        unfold onButtonClick; rw [hcb]]
      exact Inv.of_regEq (fun r => by cases r <;> rfl) rfl hs
    | none =>
      rw [show onButtonClick s h = .error .undefinedIsNotAFunction from by
        unfold onButtonClick; rw [hcb]]
      exact hs

theorem inv_applyOps {s : State} (hs : Inv s) (ops : List Op) :
    Inv (applyOps s ops) := by
  induction ops generalizing s with
  | nil => exact hs
  | cons op ops ih => exact ih (inv_applyOp hs op)

theorem ctrMono_applyOp (s : State) (op : Op) :
    s.currentHandle ≤ (applyOp s op).currentHandle := by
  cases op with
  | createDialogOp t => exact ctrMono_createDialog s t
  | createTabOp t => exact ctrMono_createTab s t
  | createButtonOp l => exact ctrMono_createButton s l
  | setLabelOp b lbl => exact (regMono_setButtonLabel s b lbl).1
  | setEnabledOp b v => exact (regMono_setButtonEnabled s b v).1
  | setDialogTitleOp d t => exact Nat.le_refl _
  | setDialogContentOp d c => exact Nat.le_refl _
  | setCustomButtonsOp d bs => exact Nat.le_refl _
  | setTabTitleOp t x => exact Nat.le_refl _
  | setTabContentOp t x => exact Nat.le_refl _
  | openOp d => exact (regMono_openDialog s d).1
  | closeOp d => exact (regMono_closeDialog s d).1
  | updateDialogOp d => exact (regMono_updateDialogContent s d).1
  | updateTabOp t => exact (updateTabContent_spec s t).2.2.1.1
  | updateButtonOp b => exact (updateButton_spec s b).2.2.1.1
  | registerOnClickOp b cb => exact (regMono_registerOnClickCallback s b cb).1
  | onButtonClickOp h =>
    show s.currentHandle ≤ (match onButtonClick s h with | .ok s1 => s1 | .error _ => s).currentHandle
    cases hcb : s.onClickCallbacks.lookup h with
    | some cb =>
      rw [show onButtonClick s h = .ok { s with firedClicks := s.firedClicks ++ [cb] } from by
        unfold onButtonClick; rw [hcb]]
    | none =>
      rw [show onButtonClick s h = .error .undefinedIsNotAFunction from by
        unfold onButtonClick; rw [hcb]]

theorem ctrMono_applyOps (s : State) (ops : List Op) :
    s.currentHandle ≤ (applyOps s ops).currentHandle := by
  induction ops generalizing s with
  | nil => exact Nat.le_refl _
  | cons op ops ih => exact le_trans (ctrMono_applyOp s op) (ih (applyOp s op))

theorem getHandleRef_idem (s : State) (r : ObjRef) :
    getHandleRef (getHandleRef s r).2 r = getHandleRef s r := by
  rw [getHandleRef_eq s r]
  cases hl : lookupRef s r with
  | some h =>
    show getHandleRef s r = (h, s)
    rw [getHandleRef_eq, hl]
  | none =>
    show getHandleRef (bumpRef s r) r = (s.currentHandle, bumpRef s r)
    rw [getHandleRef_eq, lookupRef_bumpRef, if_pos rfl]

/-- C5: get-or-assign is idempotent for all three registries: a repeated
call returns the same handle as the first call and leaves the whole state
(in particular the registry) unchanged. -/
theorem getOrAssign_idempotent :
    ∀ (s : State) (i : Nat),
      getDialogHandle (getDialogHandle s i).2 i = getDialogHandle s i ∧
      getTabHandle (getTabHandle s i).2 i = getTabHandle s i ∧
      getButtonHandle (getButtonHandle s i).2 i = getButtonHandle s i := by
  intro s i
  exact ⟨getHandleRef_idem s (.dialog i), getHandleRef_idem s (.tab i),
    getHandleRef_idem s (.button i)⟩

/-- One allocator call, discarding the returned handle. -/
def allocStep (s : State) : State := (getNewHandle s).2

/-- C6: the handle allocator returns strictly increasing values starting
at 0 with no reuse: counting calls from 0, the call made after k previous
calls (from process start) returns k — equivalently the n-th call,
counting from 1, returns n-1 — and an allocator call made after any
sequence of public operations returns a strictly larger value than any
earlier call. -/
theorem nextHandle_strictly_increasing :
    (∀ k : Nat, (getNewHandle (allocStep^[k] initState)).1 = k) ∧
    (∀ (s : State) (ops : List Op),
      (getNewHandle s).1 < (getNewHandle (applyOps (getNewHandle s).2 ops)).1) := by
  constructor
  · have hctr : ∀ k : Nat, (allocStep^[k] initState).currentHandle = k := by
      intro k
      induction k with
      | zero => rfl
      | succ n ih =>
        rw [Function.iterate_succ_apply']
        show (allocStep^[n] initState).currentHandle + 1 = n + 1
        rw [ih]
    intro k
    show (allocStep^[k] initState).currentHandle = k
    exact hctr k
  · intro s ops
    have h1 := ctrMono_applyOps (getNewHandle s).2 ops
    have h2 : (getNewHandle s).2.currentHandle = s.currentHandle + 1 := rfl
    show s.currentHandle < (applyOps (getNewHandle s).2 ops).currentHandle
    omega

theorem distinct_refs_distinct_handles {s : State} (hinv : Inv s)
    {r1 r2 : ObjRef} (hne : r1 ≠ r2) :
    (getHandleRef (getHandleRef s r1).2 r2).1 ≠ (getHandleRef s r1).1 := by
  rw [getHandleRef_eq s r1]
  cases hl1 : lookupRef s r1 with
  | some h1 =>
    show (getHandleRef s r2).1 ≠ h1
    rw [getHandleRef_eq s r2]
    cases hl2 : lookupRef s r2 with
    | some h2 =>
      show h2 ≠ h1
      intro he
      apply hne
      exact hinv.2 r1 r2 h1 hl1 (by rw [hl2, he])
    | none =>
      show s.currentHandle ≠ h1
      have := hinv.1 r1 h1 hl1
      omega
  | none =>
    show (getHandleRef (bumpRef s r1) r2).1 ≠ s.currentHandle
    rw [getHandleRef_eq (bumpRef s r1) r2, lookupRef_bumpRef]
    have hr21 : ¬ r2 = r1 := fun h => hne h.symm
    rw [if_neg hr21]
    cases hl2 : lookupRef s r2 with
    | some h2 =>
      show h2 ≠ s.currentHandle
      have := hinv.1 r2 h2 hl2
      omega
    | none =>
      show (bumpRef s r1).currentHandle ≠ s.currentHandle
      rw [currentHandle_bumpRef]
      omega

/-- C7: the registries are keyed by instance identity — in any reachable
state, get-or-assign on two distinct object references (of any kinds,
however field-identical their objects may be) returns two different
handles. -/
theorem getOrAssign_keyed_by_identity (ops : List Op) (r1 r2 : ObjRef)
    (hne : r1 ≠ r2) :
    (getHandleRef (getHandleRef (applyOps initState ops) r1).2 r2).1 ≠
      (getHandleRef (applyOps initState ops) r1).1 :=
  distinct_refs_distinct_handles (inv_applyOps Inv.init ops) hne

theorem getOrAssign_keyed_by_identity_witness :
    (ObjRef.button 0 ≠ ObjRef.button 1) ∧
    (getHandleRef (getHandleRef (applyOps initState []) (.button 0)).2 (.button 1)).1 ≠
      (getHandleRef (applyOps initState []) (.button 0)).1 :=
  ⟨by decide, getOrAssign_keyed_by_identity [] (.button 0) (.button 1) (by decide)⟩

/-- C2 (refuting evidence): on a fresh coordinator, `createButton("Done")`
associates its single new button (id 0) with handle 0 — the label setter
inside `createButton` allocates handle 0, stores the binding and keys the
initial `$setButtonDetails` with it — and then `createButton` overwrites
the registry binding with the next handle 1. The registry history holds
both bindings for the same object, and the handle the registry answers
afterward (1) differs from the handle already sent on the wire (0). -/
theorem createButton_assigns_two_handles :
    (createButton initState "Done").1 = 0 ∧
    (createButton initState "Done").2.buttonHandles = [(0, 1), (0, 0)] ∧
    (createButton initState "Done").2.messages =
      [Message.setButtonDetails 0 (some "Done") true] ∧
    (createButton initState "Done").2.buttonHandles.lookup 0 = some 1 := by
  decide

/-- C3 (dispatch behavior): with a registered callback, `$onButtonClick`
invokes exactly that callback exactly once (one new entry on the fired
trace); with no registered callback, `this._onClickCallbacks.get(handle)()`
calls `undefined` and throws an uncontrolled TypeError that propagates out
of the dispatcher, instead of reporting an UnknownHandleError without
crashing. -/
theorem onButtonClick_invokes_or_throws :
    (onButtonClick (createButton initState "X").2 1 =
      .ok { (createButton initState "X").2 with firedClicks := [0] }) ∧
    (onButtonClick (createButton initState "X").2 5 =
      .error .undefinedIsNotAFunction) ∧
    (onButtonClick initState 0 = .error .undefinedIsNotAFunction) :=
  ⟨rfl, rfl, rfl⟩

/-- C4: `createButton(label)` emits exactly one initial
`$setButtonDetails`, keyed by the handle the label setter allocates, which
is strictly smaller than (and distinct from) the handle the registry
afterward holds for the button; the click callback is registered under the
larger handle, and every later `$setButtonDetails` for the button is keyed
by the larger handle. -/
theorem createButton_initial_message_handle_mismatch (s : State) (label : String)
    (h0 : s.buttonHandles.lookup s.nextObjId = none) :
    (createButton s label).1 = s.nextObjId ∧
    (createButton s label).2.messages =
      s.messages ++ [Message.setButtonDetails s.currentHandle (some label) true] ∧
    (createButton s label).2.buttonHandles.lookup (createButton s label).1 =
      some (s.currentHandle + 1) ∧
    s.currentHandle < s.currentHandle + 1 ∧
    (createButton s label).2.onClickCallbacks.lookup (s.currentHandle + 1) =
      some (createButton s label).1 ∧
    (updateButton (createButton s label).2 (createButton s label).1).messages =
      (createButton s label).2.messages ++
        [Message.setButtonDetails (s.currentHandle + 1) (some label) true] := by
  refine ⟨rfl, ?_, ?_, by omega, ?_, ?_⟩ <;>
    simp [createButton, setButtonLabel, updateButton, getButtonHandle,
      getNewHandle, registerOnClickCallback, sendMsg, findButton, assocUpdate,
      h0, List.lookup]

theorem createButton_initial_message_handle_mismatch_witness :
    (initState.buttonHandles.lookup initState.nextObjId = none) ∧
    ((createButton initState "X").1 = initState.nextObjId ∧
     (createButton initState "X").2.messages =
       initState.messages ++ [Message.setButtonDetails initState.currentHandle (some "X") true] ∧
     (createButton initState "X").2.buttonHandles.lookup (createButton initState "X").1 =
       some (initState.currentHandle + 1) ∧
     initState.currentHandle < initState.currentHandle + 1 ∧
     (createButton initState "X").2.onClickCallbacks.lookup (initState.currentHandle + 1) =
       some (createButton initState "X").1 ∧
     (updateButton (createButton initState "X").2 (createButton initState "X").1).messages =
       (createButton initState "X").2.messages ++
         [Message.setButtonDetails (initState.currentHandle + 1) (some "X") true]) :=
  ⟨rfl, createButton_initial_message_handle_mismatch initState "X" rfl⟩

/-- C10: `createDialog(title)` returns a dialog whose okButton is present
with default label "Done", whose cancelButton is present with default
label "Cancel", both enabled, and the dialog's own handle is assigned
eagerly at construction: the registry entry already exists when
`createDialog` returns, before any open or pushState call. -/
theorem getButtonHandle_proj (y : State) (b : Nat) :
    (getButtonHandle y b).2.nextObjId = y.nextObjId ∧
    (getButtonHandle y b).2.buttons = y.buttons ∧
    (getButtonHandle y b).2.dialogs = y.dialogs ∧
    (getButtonHandle y b).2.tabs = y.tabs ∧
    (getButtonHandle y b).2.dialogHandles = y.dialogHandles ∧
    (getButtonHandle y b).2.tabHandles = y.tabHandles ∧
    (getButtonHandle y b).2.onClickCallbacks = y.onClickCallbacks := by
  rw [getButtonHandle_as_ref, getHandleRef_eq]
  cases hl : lookupRef y (.button b) with
  | some h => exact ⟨rfl, rfl, rfl, rfl, rfl, rfl, rfl⟩
  | none => simp [bumpRef]

/-- C10: `createDialog(title)` returns a dialog whose okButton is present
with default label "Done", whose cancelButton is present with default
label "Cancel", both enabled, and the dialog's own handle is assigned
eagerly at construction: the registry entry already exists when
`createDialog` returns, before any open or pushState call. -/
theorem createDialog_defaults_and_eager_handle (s : State) (title : String) :
    ∃ (obj : DialogObj) (h : Nat),
      (createDialog s title).2.dialogs.lookup (createDialog s title).1 = some obj ∧
      obj.title = some title ∧
      (createDialog s title).2.buttons.lookup obj.okButton = some ⟨some "Done", true⟩ ∧
      (createDialog s title).2.buttons.lookup obj.cancelButton = some ⟨some "Cancel", true⟩ ∧
      (createDialog s title).2.dialogHandles.lookup (createDialog s title).1 = some h := by
  have hb := fun (y : State) (b : Nat) => (getButtonHandle_proj y b).2.1
  have hn := fun (y : State) (b : Nat) => (getButtonHandle_proj y b).1
  have hd := fun (y : State) (b : Nat) => (getButtonHandle_proj y b).2.2.1
  have ht := fun (y : State) (b : Nat) => (getButtonHandle_proj y b).2.2.2.1
  have hdh := fun (y : State) (b : Nat) => (getButtonHandle_proj y b).2.2.2.2.1
  have e1 : (s.nextObjId == s.nextObjId + 1) = false := beq_eq_false_iff_ne.mpr (by omega)
  have e2 : (s.nextObjId == s.nextObjId + 2) = false := beq_eq_false_iff_ne.mpr (by omega)
  have e3 : (s.nextObjId + 1 == s.nextObjId + 2) = false := beq_eq_false_iff_ne.mpr (by omega)
  have e4 : (s.nextObjId + 2 == s.nextObjId + 1) = false := beq_eq_false_iff_ne.mpr (by omega)
  have e5 : (s.nextObjId + 1 == s.nextObjId) = false := beq_eq_false_iff_ne.mpr (by omega)
  have e6 : (s.nextObjId + 2 == s.nextObjId) = false := beq_eq_false_iff_ne.mpr (by omega)
  refine ⟨⟨some title, .undef, s.nextObjId + 1, s.nextObjId + 2, none⟩,
    (createButton (createButton { s with nextObjId := s.nextObjId + 1 } "Done").2 "Cancel").2.currentHandle,
    ?_, rfl, ?_, ?_, ?_⟩ <;>
    simp [createDialog, createButton, setButtonLabel, updateButton, sendMsg,
      getNewHandle, registerOnClickCallback, setDialogTitle, assocUpdate,
      hb, hn, hd, ht, hdh, e1, e2, e3, e4, e5, e6, List.lookup]

theorem lookup_assocUpdate {α : Type} (l : List (Nat × α)) (k : Nat) (f : α → α) :
    (assocUpdate l k f).lookup k = (l.lookup k).map f := by
  induction l with
  | nil => rfl
  | cons p rest ih =>
    obtain ⟨a, v⟩ := p
    by_cases h : a = k
    · subst h
      simp [assocUpdate, lookup_cons_hit]
    · have hred : assocUpdate ((a, v) :: rest) k f = (a, v) :: assocUpdate rest k f := by
        simp [assocUpdate, h]
      rw [hred, lookup_cons_miss _ _ h, lookup_cons_miss _ _ h, ih]

theorem getButtonHandle_fst_congr (s1 s2 : State)
    (h1 : s1.buttonHandles = s2.buttonHandles) (h2 : s1.currentHandle = s2.currentHandle)
    (b : Nat) : (getButtonHandle s1 b).1 = (getButtonHandle s2 b).1 := by
  cases hl : s2.buttonHandles.lookup b with
  | some h =>
    rw [getButtonHandle_hit hl,
      getButtonHandle_hit (show s1.buttonHandles.lookup b = some h from by rw [h1]; exact hl)]
  | none =>
    have hl1 : s1.buttonHandles.lookup b = none := by rw [h1]; exact hl
    unfold getButtonHandle getNewHandle
    rw [hl, hl1]
    exact h2

/-- C8: each assignment to a button's `label` or `enabled` field
synchronously emits exactly one `$setButtonDetails`, keyed by that
button's handle and carrying the newly assigned values; two consecutive
assignments (e.g. enabled := v1 then enabled := v2) emit two separate
messages in order, never coalesced into one. -/
theorem button_setter_emits_per_mutation (s : State) (b : Nat) (o : ButtonObj)
    (hb : s.buttons.lookup b = some o) (lbl : String) (v1 v2 : Bool) :
    (setButtonLabel s b lbl).messages =
      s.messages ++ [Message.setButtonDetails (getButtonHandle s b).1 (some lbl) o.enabled] ∧
    (setButtonEnabled s b v1).messages =
      s.messages ++ [Message.setButtonDetails (getButtonHandle s b).1 o.label v1] ∧
    (setButtonEnabled (setButtonEnabled s b v1) b v2).messages =
      s.messages ++ [Message.setButtonDetails (getButtonHandle s b).1 o.label v1,
                     Message.setButtonDetails (getButtonHandle s b).1 o.label v2] := by
  have hkey1 : (getButtonHandle { s with buttons := assocUpdate s.buttons b (fun x => { x with label := some lbl }) } b).1 = (getButtonHandle s b).1 :=
    getButtonHandle_fst_congr { s with buttons := assocUpdate s.buttons b (fun x => { x with label := some lbl }) } s rfl rfl b
  have hkey2 : (getButtonHandle { s with buttons := assocUpdate s.buttons b (fun x => { x with enabled := v1 }) } b).1 = (getButtonHandle s b).1 :=
    getButtonHandle_fst_congr { s with buttons := assocUpdate s.buttons b (fun x => { x with enabled := v1 }) } s rfl rfl b
  have hpay1 : findButton { s with buttons := assocUpdate s.buttons b (fun x => { x with label := some lbl }) } b = ⟨some lbl, o.enabled⟩ := by
    unfold findButton
    show ((assocUpdate s.buttons b _).lookup b).getD _ = _
    rw [lookup_assocUpdate, hb]
    rfl
  have hpay2 : findButton { s with buttons := assocUpdate s.buttons b (fun x => { x with enabled := v1 }) } b = ⟨o.label, v1⟩ := by
    unfold findButton
    show ((assocUpdate s.buttons b _).lookup b).getD _ = _
    rw [lookup_assocUpdate, hb]
    rfl
  have hm1 := (updateButton_spec { s with buttons := assocUpdate s.buttons b (fun x => { x with label := some lbl }) } b).1
  have hm2 := (updateButton_spec { s with buttons := assocUpdate s.buttons b (fun x => { x with enabled := v1 }) } b).1
  have hc1 : (setButtonLabel s b lbl).messages =
      s.messages ++ [Message.setButtonDetails (getButtonHandle s b).1 (some lbl) o.enabled] := by
    show (updateButton { s with buttons := assocUpdate s.buttons b (fun x => { x with label := some lbl }) } b).messages = _
    rw [hm1, hkey1, hpay1]
  have hc2 : (setButtonEnabled s b v1).messages =
      s.messages ++ [Message.setButtonDetails (getButtonHandle s b).1 o.label v1] := by
    show (updateButton { s with buttons := assocUpdate s.buttons b (fun x => { x with enabled := v1 }) } b).messages = _
    rw [hm2, hkey2, hpay2]
  refine ⟨hc1, hc2, ?_⟩
  have hbtns : (setButtonEnabled s b v1).buttons = assocUpdate s.buttons b (fun x => { x with enabled := v1 }) := by
    show (updateButton { s with buttons := assocUpdate s.buttons b (fun x => { x with enabled := v1 }) } b).buttons = _
    exact ((updateButton_spec { s with buttons := assocUpdate s.buttons b (fun x => { x with enabled := v1 }) } b).2.2.2.1).2.2
  have hlook : lookupRef (setButtonEnabled s b v1) (.button b) = some ((getButtonHandle s b).1) := by
    have h := (updateButton_spec { s with buttons := assocUpdate s.buttons b (fun x => { x with enabled := v1 }) } b).2.1
    rw [hkey2] at h
    exact h
  have hkey3 : (getButtonHandle { setButtonEnabled s b v1 with buttons := assocUpdate (setButtonEnabled s b v1).buttons b (fun x => { x with enabled := v2 }) } b).1 = (getButtonHandle s b).1 := by
    have hh : ({ setButtonEnabled s b v1 with buttons := assocUpdate (setButtonEnabled s b v1).buttons b (fun x => { x with enabled := v2 }) } : State).buttonHandles.lookup b = some ((getButtonHandle s b).1) := hlook
    rw [getButtonHandle_hit hh]
  have hpay3 : findButton { setButtonEnabled s b v1 with buttons := assocUpdate (setButtonEnabled s b v1).buttons b (fun x => { x with enabled := v2 }) } b = ⟨o.label, v2⟩ := by
    unfold findButton
    show ((assocUpdate (setButtonEnabled s b v1).buttons b _).lookup b).getD _ = _
    rw [lookup_assocUpdate, hbtns, lookup_assocUpdate, hb]
    rfl
  have hm3 := (updateButton_spec { setButtonEnabled s b v1 with buttons := assocUpdate (setButtonEnabled s b v1).buttons b (fun x => { x with enabled := v2 }) } b).1
  show (updateButton { setButtonEnabled s b v1 with buttons := assocUpdate (setButtonEnabled s b v1).buttons b (fun x => { x with enabled := v2 }) } b).messages = _
  rw [hm3, hkey3, hpay3]
  show (setButtonEnabled s b v1).messages ++ _ = _
  rw [hc2]
  simp

theorem button_setter_emits_per_mutation_witness :
    ((createButton initState "X").2.buttons.lookup 0 = some ⟨some "X", true⟩) ∧
    ((setButtonLabel (createButton initState "X").2 0 "Y").messages =
       (createButton initState "X").2.messages ++
         [Message.setButtonDetails (getButtonHandle (createButton initState "X").2 0).1 (some "Y") true] ∧
     (setButtonEnabled (createButton initState "X").2 0 false).messages =
       (createButton initState "X").2.messages ++
         [Message.setButtonDetails (getButtonHandle (createButton initState "X").2 0).1 (some "X") false] ∧
     (setButtonEnabled (setButtonEnabled (createButton initState "X").2 0 false) 0 true).messages =
       (createButton initState "X").2.messages ++
         [Message.setButtonDetails (getButtonHandle (createButton initState "X").2 0).1 (some "X") false,
          Message.setButtonDetails (getButtonHandle (createButton initState "X").2 0).1 (some "X") true]) :=
  ⟨rfl, button_setter_emits_per_mutation (createButton initState "X").2 0 ⟨some "X", true⟩ rfl "Y" false true⟩

/-! C9: abort-before-parent on child synchronization failure. -/

/-- Between two states, only child-level messages (no `$setDialogDetails`)
were appended. -/
def ChildOnly (a b : State) : Prop :=
  ∃ new, b.messages = a.messages ++ new ∧ ∀ m ∈ new, isDialogDetails m = false

theorem childOnly_refl (a : State) : ChildOnly a a :=
  ⟨[], by simp, by simp⟩

theorem childOnly_trans {a b c : State} (h1 : ChildOnly a b) (h2 : ChildOnly b c) :
    ChildOnly a c := by
  obtain ⟨n1, e1, f1⟩ := h1
  obtain ⟨n2, e2, f2⟩ := h2
  refine ⟨n1 ++ n2, by rw [e2, e1, List.append_assoc], ?_⟩
  intro m hm
  rcases List.mem_append.mp hm with h | h
  · exact f1 m h
  · exact f2 m h

theorem childOnly_of_eq {a b : State} (h : b.messages = a.messages) : ChildOnly a b :=
  ⟨[], by simp [h], by simp⟩

theorem getButtonHandle_msgs (x : State) (b : Nat) :
    (getButtonHandle x b).2.messages = x.messages := by
  rw [getButtonHandle_as_ref]; exact (getHandleRef_aux x _).2.2.2.1

theorem getTabHandle_msgs (x : State) (t : Nat) :
    (getTabHandle x t).2.messages = x.messages := by
  rw [getTabHandle_as_ref]; exact (getHandleRef_aux x _).2.2.2.1

theorem sendMsgE_childOnly (fails : Message → Bool) (x : State) (m : Message)
    (hm : isDialogDetails m = false) :
    ChildOnly x (sendMsgE fails ⟨x, false⟩ m).st := by
  unfold sendMsgE
  by_cases hf : fails m = true
  · rw [if_neg (by simp), if_pos hf]
    exact childOnly_refl x
  · rw [if_neg (by simp), if_neg hf]
    exact ⟨[m], by simp [sendMsg], by simpa using hm⟩

theorem updateButtonE_childOnly (fails : Message → Bool) (es : EState) (b : Nat) :
    ChildOnly es.st (updateButtonE fails es b).st := by
  obtain ⟨st, fl⟩ := es
  cases fl with
  | true => exact childOnly_refl st
  | false =>
    have h := sendMsgE_childOnly fails (getButtonHandle st b).2
      (.setButtonDetails (getButtonHandle st b).1
        (findButton (getButtonHandle st b).2 b).label
        (findButton (getButtonHandle st b).2 b).enabled) rfl
    exact childOnly_trans (childOnly_of_eq (getButtonHandle_msgs st b)) h

theorem updateTabContentE_childOnly (fails : Message → Bool) (es : EState) (t : Nat) :
    ChildOnly es.st (updateTabContentE fails es t).st := by
  obtain ⟨st, fl⟩ := es
  cases fl with
  | true => exact childOnly_refl st
  | false =>
    have h := sendMsgE_childOnly fails (getTabHandle st t).2
      (.setTabDetails (getTabHandle st t).1
        (findTab (getTabHandle st t).2 t).title
        (findTab (getTabHandle st t).2 t).content) rfl
    exact childOnly_trans (childOnly_of_eq (getTabHandle_msgs st t)) h

theorem foldl_updateButtonE_childOnly (fails : Message → Bool) (bs : List Nat) (es : EState) :
    ChildOnly es.st (bs.foldl (updateButtonE fails) es).st := by
  induction bs generalizing es with
  | nil => exact childOnly_refl _
  | cons b bs ih =>
    exact childOnly_trans (updateButtonE_childOnly fails es b) (ih (updateButtonE fails es b))

theorem foldl_updateTabContentE_childOnly (fails : Message → Bool) (ts : List Nat) (es : EState) :
    ChildOnly es.st (ts.foldl (updateTabContentE fails) es).st := by
  induction ts generalizing es with
  | nil => exact childOnly_refl _
  | cons t ts ih =>
    exact childOnly_trans (updateTabContentE_childOnly fails es t) (ih (updateTabContentE fails es t))

theorem syncChildrenE_childOnly (fails : Message → Bool) (es : EState) (obj : DialogObj) :
    ChildOnly es.st (syncChildrenE fails es obj).st := by
  obtain ⟨ti, co, ok, ca, cu⟩ := obj
  have htail : ∀ (x : EState), ChildOnly x.st (updateButtonE fails (updateButtonE fails x ok) ca).st :=
    fun x => childOnly_trans (updateButtonE_childOnly fails x ok) (updateButtonE_childOnly fails _ ca)
  cases co with
  | undef =>
    cases cu with
    | none => exact htail es
    | some bs => exact childOnly_trans (foldl_updateButtonE_childOnly fails bs es) (htail _)
  | str x =>
    cases cu with
    | none => exact htail es
    | some bs => exact childOnly_trans (foldl_updateButtonE_childOnly fails bs es) (htail _)
  | tabs ts =>
    cases cu with
    | none => exact childOnly_trans (foldl_updateTabContentE_childOnly fails ts es) (htail _)
    | some bs =>
      exact childOnly_trans (foldl_updateTabContentE_childOnly fails ts es)
        (childOnly_trans (foldl_updateButtonE_childOnly fails bs _) (htail _))

/-- C9: if synchronizing any child fails (a send raises) during the child
phase of `updateDialogContent`, the call aborts before the parent message:
everything emitted by the failed call is child-level, and no
`$setDialogDetails` for the dialog is ever sent on that path — a partial
parent-without-children state cannot be sent. -/
theorem child_failure_aborts_parent_message (fails : Message → Bool) (s : State)
    (d : Nat) (obj : DialogObj) (hfind : s.dialogs.lookup d = some obj)
    (hfail : (syncChildrenE fails ⟨(getDialogHandle s d).2, false⟩ obj).failed = true) :
    ∃ new, (updateDialogContentE fails ⟨s, false⟩ d).st.messages = s.messages ++ new ∧
      ∀ m ∈ new, isDialogDetails m = false := by
  have hred : updateDialogContentE fails ⟨s, false⟩ d =
      syncChildrenE fails ⟨(getDialogHandle s d).2, false⟩ obj := by
    simp [updateDialogContentE, hfind, hfail]
  obtain ⟨new, hmsg, hnone⟩ := syncChildrenE_childOnly fails ⟨(getDialogHandle s d).2, false⟩ obj
  refine ⟨new, ?_, hnone⟩
  rw [hred, hmsg]
  rw [show (getDialogHandle s d).2.messages = s.messages from by
    rw [getDialogHandle_as_ref]; exact (getHandleRef_aux s (.dialog d)).2.2.2.1]

/-- A channel-failure model in which every `$setButtonDetails` send
raises. -/
def failsButtonDetails : Message → Bool
  | .setButtonDetails _ _ _ => true
  | _ => false

theorem child_failure_aborts_parent_message_witness :
    ((createDialog initState "T").2.dialogs.lookup 0 =
      some ⟨some "T", DContent.undef, 1, 2, none⟩) ∧
    ((syncChildrenE failsButtonDetails ⟨(getDialogHandle (createDialog initState "T").2 0).2, false⟩
        ⟨some "T", DContent.undef, 1, 2, none⟩).failed = true) ∧
    (∃ new, (updateDialogContentE failsButtonDetails ⟨(createDialog initState "T").2, false⟩ 0).st.messages =
        (createDialog initState "T").2.messages ++ new ∧
      ∀ m ∈ new, isDialogDetails m = false) :=
  ⟨by decide, by decide,
   child_failure_aborts_parent_message failsButtonDetails (createDialog initState "T").2 0
     ⟨some "T", DContent.undef, 1, 2, none⟩ (by decide) (by decide)⟩

/-- The spec scenario state: dialog "Connect" (id 0, okButton 1,
cancelButton 2), tab "General" (id 3) with content "form", dialog content
set to the tab sequence. -/
def sConnect : State :=
  setDialogContent
    (setTabContent (createTab (createDialog initState "Connect").2 "General").2 3 "form")
    0 (.tabs [3])

theorem open_emits_children_before_parent_witness :
    (sConnect.dialogs.lookup 0 = some ⟨some "Connect", DContent.tabs [3], 1, 2, none⟩) ∧
    ((openDialog sConnect 0).messages = sConnect.messages
      ++ (contentTabs (DContent.tabs [3])).map (fun t =>
           Message.setTabDetails (tabHandleOf (openDialog sConnect 0) t)
             (findTab sConnect t).title (findTab sConnect t).content)
      ++ (customList none).map (fun b =>
           Message.setButtonDetails (buttonHandleOf (openDialog sConnect 0) b)
             (findButton sConnect b).label (findButton sConnect b).enabled)
      ++ [Message.setButtonDetails (buttonHandleOf (openDialog sConnect 0) 1)
            (findButton sConnect 1).label (findButton sConnect 1).enabled,
          Message.setButtonDetails (buttonHandleOf (openDialog sConnect 0) 2)
            (findButton sConnect 2).label (findButton sConnect 2).enabled,
          Message.setDialogDetails (dialogHandleOf (openDialog sConnect 0) 0)
            ⟨some "Connect",
             buttonHandleOf (openDialog sConnect 0) 1,
             buttonHandleOf (openDialog sConnect 0) 2,
             wireContentOf (openDialog sConnect 0) (DContent.tabs [3]),
             (none : Option (List Nat)).map (fun l => l.map (buttonHandleOf (openDialog sConnect 0)))⟩,
          Message.openMsg (dialogHandleOf (openDialog sConnect 0) 0)]) :=
  ⟨by decide,
   open_emits_children_before_parent sConnect 0 ⟨some "Connect", DContent.tabs [3], 1, 2, none⟩ (by decide)⟩

end ModelViewDialog
